import Mathlib

/-!
Verification development for the ethpandaops MCP server.

This file gives a shallow embedding, in Lean 4, of the parts of the Go
codebase that the specification's claims are about, and proves (or refutes)
each claim against that embedding.

Modelling conventions:
* Go `float64` values are modelled as `Rat` (the code under scrutiny only
  performs exact arithmetic on them: divisions by 60, comparisons, and
  conversions to `int`).
* Go `time.Duration` is modelled as `Int`, counted in nanoseconds, with
  `timeSecond` standing for `time.Second`.
* Go maps are modelled as association lists with an insert-or-replace
  operation; iteration order is irrelevant for every property proved here.
* Fallible Go functions returning `(T, error)` are modelled as `Option` or
  `Except String`.
* External effects (HTTP fetches, the sandbox runtime, RSA signature
  verification) are modelled as explicit parameters describing their
  outcome, so that the control flow of the embedded functions is exactly
  the control flow of the source.
-/

/-- Go `float64 → int` conversion: truncation toward zero
(`int(x)` in Go), expressed through the integer floor. -/
def goInt (q : Rat) : Int :=
  if q < 0 then -⌊-q⌋ else ⌊q⌋

/-- Model of Go `time.Second` (`time.Duration` is an `Int64` nanosecond
count). -/
def timeSecond : Int := 1000000000

/-! ### `pkg/config/config.go` — rate-limit rule normalization -/

/-- Embeds `config.RateLimitRule` (src/pkg/config/config.go).
`RequestsPerSecond` is a `float64`, `BlockDuration` a `time.Duration`
(nanoseconds). -/
structure RateLimitRule where
  RequestsPerSecond : Rat := 0
  RequestsPerMinute : Int := 0
  BurstSize : Int := 0
  BlockDuration : Int := 0
deriving Repr, DecidableEq

/-- Embeds `RateLimitRule.GetRequestsPerSecond` (src/pkg/config/config.go:177). -/
def RateLimitRule.GetRequestsPerSecond (r : RateLimitRule) : Rat :=
  if r.RequestsPerSecond > 0 then r.RequestsPerSecond
  else if r.RequestsPerMinute > 0 then (r.RequestsPerMinute : Rat) / 60
  else 1

/-- Embeds `RateLimitRule.GetBurstSize` (src/pkg/config/config.go:188).
The default branch converts the float rate with Go's `int(...)`
(truncation toward zero), then clamps the result at 1. -/
def RateLimitRule.GetBurstSize (r : RateLimitRule) : Int :=
  if r.BurstSize > 0 then r.BurstSize
  else
    let burst := goInt r.GetRequestsPerSecond
    if burst < 1 then 1 else burst

/-- Embeds `RateLimitRule.GetBlockDuration` (src/pkg/config/config.go:201). -/
def RateLimitRule.GetBlockDuration (r : RateLimitRule) : Int :=
  if r.BlockDuration > 0 then r.BlockDuration
  else 60 * timeSecond

/-! ### `golang.org/x/time/rate` token bucket (library model)

`inMemoryLimiter` stores a `*rate.Limiter` per key.  We model the limiter
as its token count together with its configured rate and burst; the time
elapsed since the limiter's last update is passed explicitly.  `advanceTokens`
is the library's lazy refill (`limiter.advance`), `limiterTokens` is
`Limiter.Tokens()` and `limiterAllow` is `Limiter.Allow()` (which admits
iff one token is available after refill, and only then consumes it;
a denied call leaves the state unchanged). -/

/-- State of a `rate.Limiter` with a finite, positive limit. -/
structure LimiterState where
  limit : Rat
  burst : Int
  tokens : Rat
deriving Repr, DecidableEq

/-- Lazy refill: tokens grow at `limit` per second, capped at `burst`. -/
def advanceTokens (s : LimiterState) (elapsed : Rat) : Rat :=
  min (s.burst : Rat) (s.tokens + elapsed * s.limit)

/-- Embeds `rate.Limiter.Tokens()` at `elapsed` seconds after the last update. -/
def limiterTokens (s : LimiterState) (elapsed : Rat) : Rat :=
  advanceTokens s elapsed

/-- Embeds `rate.Limiter.Allow()` at `elapsed` seconds after the last update:
admit iff `1 ≤ burst` and at least one token is available, consuming a
token exactly when admitting. -/
def limiterAllow (s : LimiterState) (elapsed : Rat) : Bool × LimiterState :=
  let t := advanceTokens s elapsed
  if 1 ≤ s.burst ∧ 1 ≤ t then
    (true, { s with tokens := t - 1 })
  else
    (false, s)

/-! ### `pkg/middleware/ratelimit.go` — the in-memory limiter -/

/-- Embeds `middleware.RateLimitInfo` (src/pkg/middleware/ratelimit.go:40). -/
structure RateLimitInfo where
  Limit : Rat
  Remaining : Int
  ResetAt : Int
deriving Repr, DecidableEq

/-- Embeds `middleware.inMemoryEntry` (src/pkg/middleware/ratelimit.go:221).
`lastUsed` is omitted: it only feeds the janitor, which no claim here
touches. -/
structure inMemoryEntry where
  limiter : LimiterState
  resetAt : Int
  burstSize : Int
  ratePerSec : Rat
deriving Repr, DecidableEq

/-- Embeds `inMemoryLimiter.Allow` (src/pkg/middleware/ratelimit.go:244) for an
entry already present: compute `Remaining` from `limiter.Tokens()`
(clamped at 0) BEFORE consulting `limiter.Allow()`, then decide.
`elapsed` is the time since the entry's limiter was last updated; the
source calls `Tokens()` and `Allow()` back to back, so both see the same
instant. -/
def inMemoryAllow (entry : inMemoryEntry) (elapsed : Rat) :
    Bool × RateLimitInfo × inMemoryEntry :=
  let remaining0 := goInt (limiterTokens entry.limiter elapsed)
  let remaining := if remaining0 < 0 then 0 else remaining0
  let info : RateLimitInfo :=
    { Limit := entry.ratePerSec, Remaining := remaining, ResetAt := entry.resetAt }
  let (ok, s) := limiterAllow entry.limiter elapsed
  (ok, info, { entry with limiter := s })

/-! ### Configuration (`pkg/config/config.go`, `pkg/grafana/config.go`)

Only the fields the embedded functions read are carried.  `GrafanaConfig`
and `StorageConfig` are the credential-bearing configs consumed by
`buildSandboxEnv`; `SandboxConfig` carries the image and the default
execution timeout consumed by the `execute_python` handler and by
`Config.Validate`. -/

/-- Embeds `grafana.Config` (src/pkg/grafana/config.go): URL, service token and
HTTP timeout (seconds). -/
structure GrafanaConfig where
  URL : String
  ServiceToken : String
  Timeout : Int
deriving Repr, DecidableEq

/-- Embeds `config.StorageConfig` (src/pkg/config/config.go:114). -/
structure StorageConfig where
  Endpoint : String
  AccessKey : String
  SecretKey : String
  Bucket : String
  Region : String
  PublicURLPfx : String
deriving Repr, DecidableEq

/-- Embeds `config.SandboxConfig` (src/pkg/config/config.go:65), restricted to
the fields `Config.Validate` and the tool handler read. -/
structure SandboxConfig where
  Image : String
  Timeout : Int
deriving Repr, DecidableEq

/-- The configuration record seen by the embedded functions: the
`Sandbox`/`Storage` sections of `config.Config` together with the
`Grafana` section read by `buildSandboxEnv`. -/
structure Config where
  Grafana : GrafanaConfig
  Storage : Option StorageConfig
  Sandbox : SandboxConfig
deriving Repr, DecidableEq

/-- Embeds `config.MaxSandboxTimeout` (src/pkg/config/config.go:403). -/
def MaxSandboxTimeout : Int := 600

/-- Embeds `Config.Validate` (src/pkg/config/config.go:406): requires a sandbox
image and caps `sandbox.timeout` at 600 seconds; it imposes no lower
bound and no other bound. -/
def Config.Validate (c : Config) : Except String Unit :=
  if c.Sandbox.Image = "" then
    Except.error "sandbox.image is required"
  else if c.Sandbox.Timeout > MaxSandboxTimeout then
    Except.error "sandbox.timeout cannot exceed 600 seconds"
  else
    Except.ok ()

/-! ### `pkg/tool/execute_python.go` — the sandbox environment -/

/-- Environment maps are association lists; all keys written by
`buildSandboxEnv` are distinct, so plain append is faithful to the Go map
writes. -/
def envGet (env : List (String × String)) (k : String) : Option String :=
  (env.find? fun p => p.1 = k).map fun p => p.2

/-- Embeds `buildSandboxEnv` (src/pkg/tool/execute_python.go:237): the
environment injected into the sandbox.  It carries the Grafana URL,
the Grafana service token, the HTTP timeout and, when storage is
configured, the S3 endpoint, access key, secret key, bucket, region and
public URL setting. -/
def buildSandboxEnv (cfg : Config) : List (String × String) :=
  let env := [("XATU_GRAFANA_URL", cfg.Grafana.URL),
              ("XATU_GRAFANA_TOKEN", cfg.Grafana.ServiceToken),
              ("XATU_HTTP_TIMEOUT", toString cfg.Grafana.Timeout)]
  match cfg.Storage with
  | none => env
  | some s =>
    let env := env ++ [("XATU_S3_ENDPOINT", s.Endpoint),
                       ("XATU_S3_ACCESS_KEY", s.AccessKey),
                       ("XATU_S3_SECRET_KEY", s.SecretKey),
                       ("XATU_S3_BUCKET", s.Bucket),
                       ("XATU_S3_REGION", s.Region)]
    if s.PublicURLPfx ≠ "" then
      env ++ [("XATU_S3_PUBLIC_URL_PREFIX", s.PublicURLPfx)]
    else
      env

/-! ### String helpers

The corresponding Lean standard-library functions (`String.splitOn`,
`String.trim`, `Nat.repr`, …) are defined by well-founded recursion and
do not reduce inside the kernel, so the Go string operations the
embedded code uses are re-implemented here structurally over `List
Char`.  They are plain reimplementations of `strings.Split` (single
character separator), `strings.TrimSpace`, `strconv.Itoa` and friends. -/

/-- Split a character list at every occurrence of `c`
(`strings.Split` with a one-character separator; always returns at
least one piece). -/
def splitCharAux (c : Char) : List Char → List Char → List (List Char)
  | [], acc => [acc.reverse]
  | x :: xs, acc =>
    if x = c then acc.reverse :: splitCharAux c xs []
    else splitCharAux c xs (x :: acc)

/-- Embeds `strings.Split s (String.singleton c)`. -/
def splitChar (s : String) (c : Char) : List String :=
  (splitCharAux c s.toList []).map fun l => String.mk l

/-- ASCII whitespace, as trimmed by `strings.TrimSpace` (the Unicode
space classes beyond ASCII are irrelevant here). -/
def isSpaceChar (c : Char) : Bool :=
  c = ' ' ∨ c = '\t' ∨ c = '\n' ∨ c = '\r' ∨ c = Char.ofNat 11 ∨ c = Char.ofNat 12

/-- Embeds `strings.TrimSpace`. -/
def trimSpace (s : String) : String :=
  String.mk (((s.toList.dropWhile isSpaceChar).reverse.dropWhile isSpaceChar).reverse)

/-- Digit characters of a natural number, most significant first
(`fuel` bounds the recursion; `fuel = n + 1` is always enough). -/
def natDigits : Nat → Nat → List Char
  | 0, _ => []
  | fuel + 1, n =>
    if n < 10 then [Char.ofNat (48 + n)]
    else natDigits fuel (n / 10) ++ [Char.ofNat (48 + n % 10)]

/-- Embeds `strconv.Itoa` for naturals. -/
def natToStr (n : Nat) : String :=
  String.mk (natDigits (n + 1) n)

/-- Embeds `strconv.Itoa` / `fmt %d` for integers. -/
def intToStr (i : Int) : String :=
  if i < 0 then "-" ++ natToStr i.natAbs else natToStr i.natAbs

/-- Does `s` contain `sub` as a substring (`strings.Contains`)?  Helper
`leadsWith` is `strings.HasPrefix` on character lists. -/
def leadsWith : List Char → List Char → Bool
  | [], _ => true
  | _ :: _, [] => false
  | a :: as, b :: bs => a = b ∧ leadsWith as bs

/-- Occurrence of `sub` at any position of `s`. -/
def hasSubstrAux (sub : List Char) : List Char → Bool
  | [] => leadsWith sub []
  | c :: cs => leadsWith sub (c :: cs) ∨ hasSubstrAux sub cs

/-- Embeds `strings.Contains s sub`. -/
def containsSub (s sub : String) : Bool :=
  hasSubstrAux sub.toList s.toList

/-- Embeds `strings.Join parts sep` (`String.intercalate`, re-implemented
structurally). -/
def joinWith (sep : String) : List String → String
  | [] => ""
  | [x] => x
  | x :: xs => x ++ sep ++ joinWith sep xs

/-- Decimal value of a digit string (the caller checks the characters
are digits). -/
def digitsVal (l : List Char) : Nat :=
  l.foldl (fun acc c => acc * 10 + (c.toNat - 48)) 0

/-! ### `net` standard-library models (IPv4)

`getClientIP`/`isTrustedProxy` call `net.SplitHostPort`, `net.ParseIP`
and `net.ParseCIDR`.  These are modelled for IPv4 (dotted-quad) — the
form every rate-limit key in this system takes; `net.ParseIP` since Go
1.17 rejects leading zeros in octets, which the model mirrors.  An IPv4
address is carried as its 32-bit value. -/

/-- One dotted-quad octet: digits only, value ≤ 255, no leading zero. -/
def parseOctet (s : String) : Option Nat :=
  let cs := s.toList
  if cs = [] then none
  else if ¬ cs.all (fun c => c.isDigit) then none
  else if cs.head? = some '0' ∧ cs ≠ ['0'] then none
  else
    let v := digitsVal cs
    if v ≤ 255 ∧ cs.length ≤ 3 then some v else none

/-- Model of `net.ParseIP` restricted to IPv4 dotted-quad form. -/
def parseIP (s : String) : Option Nat :=
  match (splitChar s '.').map parseOctet with
  | [some a, some b, some c, some d] => some (((a * 256 + b) * 256 + c) * 256 + d)
  | _ => none

/-- Model of `net.ParseCIDR` for IPv4: `a.b.c.d/n` with `0 ≤ n ≤ 32`;
returns the (unmasked) address together with the length. -/
def parseCIDR (s : String) : Option (Nat × Nat) :=
  match splitChar s '/' with
  | [ipStr, lenStr] =>
    match parseIP ipStr with
    | some ip =>
      let lcs := lenStr.toList
      if lcs ≠ [] ∧ lcs.all (fun c => c.isDigit) ∧ digitsVal lcs ≤ 32 then
        some (ip, digitsVal lcs)
      else
        none
    | none => none
  | _ => none

/-- Embeds `IPNet.Contains`: the top `n` bits agree. -/
def cidrContains (base n ip : Nat) : Bool :=
  ip / 2 ^ (32 - n) = base / 2 ^ (32 - n)

/-- Model of `net.SplitHostPort`: split at the last colon; a bracketed
host (`[h]:p`) loses its brackets; an unbracketed host containing a
further colon is an error, as is an address with no colon at all. -/
def splitHostPort (s : String) : Option (String × String) :=
  let cs := s.toList
  match (cs.reverse.findIdx? fun c => c = ':') with
  | none => none
  | some ri =>
    let i := cs.length - 1 - ri
    let host := cs.take i
    let port := String.mk (cs.drop (i + 1))
    match host with
    | '[' :: rest =>
      if rest.getLast? = some ']' then some (String.mk rest.dropLast, port)
      else none
    | _ =>
      if host.contains ':' then none
      else some (String.mk host, port)

/-! ### `pkg/middleware/ratelimit.go` — client-IP resolution -/

/-- Embeds `config.RateLimitConfig` (src/pkg/config/config.go:130), restricted
to the fields `getClientIP`/`isTrustedProxy` read. -/
structure RateLimitConfig where
  Enabled : Bool
  TrustedProxies : List String
deriving Repr, DecidableEq

/-- Embeds `RateLimiter.isTrustedProxy` (src/pkg/middleware/ratelimit.go:172):
an unparsable peer IP is never trusted; entries containing `/` are
CIDR ranges (malformed ones are skipped), others must match exactly. -/
def isTrustedProxy (cfg : RateLimitConfig) (ip : String) : Bool :=
  match parseIP ip with
  | none => false
  | some parsedIP =>
    cfg.TrustedProxies.any fun trusted =>
      if trusted.toList.contains '/' then
        match parseCIDR trusted with
        | none => false
        | some (base, n) => cidrContains base n parsedIP
      else
        trusted = ip

/-- The request fields `getClientIP` reads.  `XForwardedFor`/`XRealIP`
hold `r.Header.Get(...)`, which returns `""` for an absent header. -/
structure HttpRequest where
  RemoteAddr : String
  XForwardedFor : String
  XRealIP : String
deriving Repr, DecidableEq

/-- The peer IP: `net.SplitHostPort(r.RemoteAddr)`, falling back to the
whole `RemoteAddr` on error (src/pkg/middleware/ratelimit.go:141). -/
def remoteIPOf (r : HttpRequest) : String :=
  match splitHostPort r.RemoteAddr with
  | some (host, _) => host
  | none => r.RemoteAddr

/-- Embeds `RateLimiter.getClientIP` (src/pkg/middleware/ratelimit.go:139).
Early returns are folded into an `Option` for the X-Forwarded-For
branch: the first comma-separated entry is used iff it trims to a
non-empty string; otherwise X-Real-IP (trimmed) when non-empty;
otherwise the peer IP.  Headers are consulted only when the peer is a
trusted proxy. -/
def getClientIP (cfg : RateLimitConfig) (r : HttpRequest) : String :=
  let remoteIP := remoteIPOf r
  if isTrustedProxy cfg remoteIP then
    let fromXFF : Option String :=
      if r.XForwardedFor ≠ "" then
        match splitChar r.XForwardedFor ',' with
        | [] => none
        | ip0 :: _ =>
          if trimSpace ip0 ≠ "" then some (trimSpace ip0) else none
      else
        none
    match fromXFF with
    | some clientIP => clientIP
    | none => if r.XRealIP ≠ "" then trimSpace r.XRealIP else remoteIP
  else
    remoteIP

/-! ### `pkg/proxy/jwt.go` — JWT validation

`jwt.Parse` (golang-jwt/v5) is modelled on an already-decoded token:
claims are a JSON object (association list of `JsonValue`), the header
carries `alg` and an optional `kid`, and RSA-SHA256 signature
verification — external cryptography — is an explicit boolean parameter
`verify` applied to the selected public key and the token.  With
`jwt.WithValidMethods(["RS256"])` the parse accepts only `alg = RS256`;
the v5 claims validator then checks the registered `exp` and `nbf`
claims (no leeway configured).  Everything after the parse is a direct
translation of `jwtValidator.Validate`. -/

/-- A JSON value, as `encoding/json` decodes into `any`.  Numeric
claims are modelled as integers (`exp`/`nbf` are integral timestamps
in every token this system handles). -/
inductive JsonValue where
  | str (s : String)
  | num (n : Int)
  | bool (b : Bool)
  | arr (xs : List JsonValue)
  | null

/-- Embeds `jwt.MapClaims`: a decoded JSON object. -/
abbrev MapClaims := List (String × JsonValue)

/-- Map lookup on decoded claims. -/
def claimsLookup (cs : MapClaims) (k : String) : Option JsonValue :=
  (cs.find? fun p => p.1 = k).map fun p => p.2

/-- Embeds `getString` (src/pkg/proxy/jwt.go:336): the claim's string value,
or `""` when absent or not a string. -/
def getString (cs : MapClaims) (k : String) : String :=
  match claimsLookup cs k with
  | some (JsonValue.str s) => s
  | _ => ""

/-- Embeds `extractAudience` (src/pkg/proxy/jwt.go:344): a string audience
becomes a one-element sequence; an array keeps its string elements;
anything else is empty. -/
def extractAudience (cs : MapClaims) : List String :=
  match claimsLookup cs "aud" with
  | some (JsonValue.str a) => [a]
  | some (JsonValue.arr xs) =>
    xs.filterMap fun v => match v with | JsonValue.str s => some s | _ => none
  | _ => []

/-- Embeds `containsAudience` (src/pkg/proxy/jwt.go:362). -/
def containsAudience (audiences : List String) (expected : String) : Bool :=
  audiences.contains expected

/-- Embeds `hasAllowedOrg` (src/pkg/proxy/jwt.go:366): some allowed org occurs
among the groups. -/
def hasAllowedOrg (groups allowedOrgs : List String) : Bool :=
  allowedOrgs.any fun org => groups.contains org

/-- The string elements of the `groups` claim
(src/pkg/proxy/jwt.go:171: non-arrays yield no groups; non-string
elements are skipped). -/
def groupsOf (cs : MapClaims) : List String :=
  match claimsLookup cs "groups" with
  | some (JsonValue.arr xs) =>
    xs.filterMap fun v => match v with | JsonValue.str s => some s | _ => none
  | _ => []

/-- Embeds `rsa.PublicKey`: modulus and exponent. -/
structure RSAPublicKey where
  N : Nat
  E : Nat
deriving Repr, DecidableEq

/-- The JWKS key cache `map[string]*rsa.PublicKey`. -/
abbrev KeyMap := List (String × RSAPublicKey)

/-- Map lookup on the key cache. -/
def lookupKey (m : KeyMap) (kid : String) : Option RSAPublicKey :=
  (m.find? fun p => p.1 = kid).map fun p => p.2

/-- Map insert-or-replace on the key cache (`m[kid] = k`). -/
def keyInsert (m : KeyMap) (kid : String) (k : RSAPublicKey) : KeyMap :=
  if m.any fun p => p.1 = kid then
    m.map fun p => if p.1 = kid then (kid, k) else p
  else
    m ++ [(kid, k)]

/-- A JWT after base64/JSON decoding: header `alg` and `kid`, the claim
set, and the (opaque) signature over the signing string. -/
structure JwtToken where
  alg : String
  kid : Option String
  claims : MapClaims
  sig : String

/-- Embeds `jwtValidator.keyFunc` (src/pkg/proxy/jwt.go:206): require a `kid`
header and look it up in the current key map. -/
def keyFunc (keys : KeyMap) (tok : JwtToken) : Except String RSAPublicKey :=
  match tok.kid with
  | none => Except.error "missing kid in token header"
  | some kid =>
    match lookupKey keys kid with
    | none => Except.error ("key not found for kid: " ++ kid)
    | some key => Except.ok key

/-- The v5 validator's `exp` check (no leeway): valid iff absent, or an
integral timestamp not before `now`; a non-numeric `exp` is a
validation error. -/
def expOK (now : Int) (cs : MapClaims) : Bool :=
  match claimsLookup cs "exp" with
  | none => true
  | some (JsonValue.num e) => now ≤ e
  | some _ => false

/-- The v5 validator's `nbf` check (no leeway): valid iff absent, or an
integral timestamp not after `now`; a non-numeric `nbf` is a validation
error. -/
def nbfOK (now : Int) (cs : MapClaims) : Bool :=
  match claimsLookup cs "nbf" with
  | none => true
  | some (JsonValue.num n) => n ≤ now
  | some _ => false

/-- Embeds `jwt.Parse(tokenString, keyFunc, jwt.WithValidMethods(["RS256"]))`:
method check, key resolution, signature verification, then registered
claim (time) validation. -/
def jwtParse (verify : RSAPublicKey → JwtToken → Bool) (keys : KeyMap)
    (now : Int) (tok : JwtToken) : Except String MapClaims :=
  if tok.alg ≠ "RS256" then
    Except.error "signing method not allowed"
  else
    match keyFunc keys tok with
    | Except.error e => Except.error e
    | Except.ok key =>
      if ¬ verify key tok then Except.error "signature is invalid"
      else if ¬ expOK now tok.claims then Except.error "token is expired"
      else if ¬ nbfOK now tok.claims then Except.error "token is not valid yet"
      else Except.ok tok.claims

/-- Embeds `proxy.JWTClaims` (src/pkg/proxy/jwt.go:32).  Timestamps are Unix
seconds (0 when absent). -/
structure JWTClaims where
  Subject : String
  Email : String
  Groups : List String
  Issuer : String
  Audience : List String
  ExpiresAt : Int
  IssuedAt : Int
  GitHubLogin : String
  GitHubID : Int
deriving Repr, DecidableEq

/-- Embeds `proxy.JWTValidatorConfig` (src/pkg/proxy/jwt.go:45), restricted to
the fields `Validate` reads. -/
structure JWTValidatorConfig where
  Issuer : String
  Audience : String
  AllowedOrgs : List String
deriving Repr, DecidableEq

/-- Numeric claim value (used for `exp` / `iat` projection), 0 when
absent or non-numeric. -/
def numClaim (cs : MapClaims) (k : String) : Int :=
  match claimsLookup cs k with
  | some (JsonValue.num n) => n
  | _ => 0

/-- Embeds `jwtValidator.Validate` (src/pkg/proxy/jwt.go:132): parse and
verify, then check issuer (when configured), audience (when
configured), project the claims, and finally check the group/org
allow-list (when configured). -/
def jwtValidatorValidate (cfg : JWTValidatorConfig) (keys : KeyMap)
    (verify : RSAPublicKey → JwtToken → Bool) (now : Int) (tok : JwtToken) :
    Except String JWTClaims :=
  match jwtParse verify keys now tok with
  | Except.error e => Except.error ("parsing token: " ++ e)
  | Except.ok claims =>
    let issuer := getString claims "iss"
    if cfg.Issuer ≠ "" ∧ issuer ≠ cfg.Issuer then
      Except.error "invalid issuer"
    else if cfg.Audience ≠ "" ∧ ¬ containsAudience (extractAudience claims) cfg.Audience then
      Except.error "invalid audience"
    else
      let jwtClaims : JWTClaims :=
        { Subject := getString claims "sub"
          Email := getString claims "email"
          Groups := groupsOf claims
          Issuer := issuer
          Audience := extractAudience claims
          ExpiresAt := numClaim claims "exp"
          IssuedAt := numClaim claims "iat"
          GitHubLogin := getString claims "github_login"
          GitHubID := numClaim claims "github_id" }
      if cfg.AllowedOrgs ≠ [] ∧ ¬ hasAllowedOrg jwtClaims.Groups cfg.AllowedOrgs then
        Except.error "user not in allowed organizations"
      else
        Except.ok jwtClaims

/-- Whether a fallible operation succeeded. -/
def isAccepted {ε α : Type} (e : Except ε α) : Bool :=
  match e with
  | Except.ok _ => true
  | Except.error _ => false

/-! ### `pkg/proxy/auth.go` — authentication middlewares

Each middleware either rejects the request with a status and a body
(via `http.Error`, which writes the message followed by a newline — the
newline is uniform and omitted here) or passes it to the next handler
with identity data in the context.  The token store / JWT validator is
abstracted by the outcome function the middleware consults:
`TokenStore.Validate` returns the bound execution id or `""`, and
`jwtValidator.Validate` returns claims or an error. -/

/-- Outcome of an HTTP middleware: reject with status and body, or pass
through with the authenticated identity. -/
inductive MWOutcome where
  | reject (status : Nat) (body : String)
  | pass (userID : String)
deriving Repr, DecidableEq

/-- Embeds `tokenAuthenticator.Middleware` (src/pkg/proxy/auth.go:59). -/
def tokenAuthMiddleware (validate : String → String) (auth : String) : MWOutcome :=
  if auth = "" then
    MWOutcome.reject 401 "missing Authorization header"
  else if ¬ leadsWith "Bearer ".toList auth.toList then
    MWOutcome.reject 401 "invalid Authorization header format"
  else
    let token := String.mk (auth.toList.drop 7)
    let executionID := validate token
    if executionID = "" then
      MWOutcome.reject 401 "invalid or expired token"
    else
      MWOutcome.pass executionID

/-- Embeds `jwtAuthenticator.Middleware` (src/pkg/proxy/auth.go:127). -/
def jwtAuthMiddleware (validate : String → Except String JWTClaims)
    (auth : String) : MWOutcome :=
  if auth = "" then
    MWOutcome.reject 401 "missing Authorization header"
  else if ¬ leadsWith "Bearer ".toList auth.toList then
    MWOutcome.reject 401 "invalid Authorization header format"
  else
    let tokenString := String.mk (auth.toList.drop 7)
    match validate tokenString with
    | Except.error _ => MWOutcome.reject 401 "invalid or expired token"
    | Except.ok claims => MWOutcome.pass claims.Subject

/-! ### `pkg/proxy/jwt.go` — JWKS refresh

`refreshJWKS` performs an HTTP GET whose outcome is modelled
explicitly: a transport error, or a status code with a body that either
decodes to a `jwksResponse` or does not.  Key parsing
(`parseRSAPublicKey`) decodes the base64url modulus and exponent — the
raw (unpadded) URL alphabet, rejecting input lengths ≡ 1 (mod 4), as
`base64.RawURLEncoding.DecodeString` does. -/

/-- Embeds `jwkKey` (src/pkg/proxy/jwt.go:300). -/
structure jwkKey where
  Kty : String
  Use : String
  Kid : String
  Alg : String
  N : String
  E : String
deriving Repr, DecidableEq

/-- Embeds `jwksResponse` (src/pkg/proxy/jwt.go:295). -/
structure jwksResponse where
  keys : List jwkKey
deriving Repr, DecidableEq

/-- Value of one character of the base64url alphabet. -/
def b64Val (c : Char) : Option Nat :=
  if 'A' ≤ c ∧ c ≤ 'Z' then some (c.toNat - 65)
  else if 'a' ≤ c ∧ c ≤ 'z' then some (c.toNat - 97 + 26)
  else if '0' ≤ c ∧ c ≤ '9' then some (c.toNat - 48 + 52)
  else if c = '-' then some 62
  else if c = '_' then some 63
  else none

/-- Big-endian byte list of a natural, padded to `len` bytes. -/
def natToBytes (n len : Nat) : List Nat :=
  (List.range len).map fun i => n / 2 ^ (8 * (len - 1 - i)) % 256

/-- Embeds `base64.RawURLEncoding.DecodeString`: every character must belong
to the URL alphabet, the length must not be ≡ 1 (mod 4), and the
`6·len` bits are truncated to whole bytes. -/
def base64urlDecode (s : String) : Option (List Nat) :=
  match s.toList.mapM b64Val with
  | none => none
  | some vals =>
    if s.toList.length % 4 = 1 then none
    else
      let total := vals.foldl (fun acc v => acc * 64 + v) 0
      let numBytes := vals.length * 6 / 8
      let excess := vals.length * 6 % 8
      some (natToBytes (total / 2 ^ excess) numBytes)

/-- Embeds `big.Int.SetBytes` (big-endian); also the accumulation loop
`e = e<<8 | int(b)` used for the exponent. -/
def bytesToNat (bs : List Nat) : Nat :=
  bs.foldl (fun acc b => acc * 256 + b) 0

/-- Embeds `parseRSAPublicKey` (src/pkg/proxy/jwt.go:310): decode modulus and
exponent; failure of either decode fails the parse. -/
def parseRSAPublicKey (key : jwkKey) : Option RSAPublicKey :=
  match base64urlDecode key.N, base64urlDecode key.E with
  | some nBytes, some eBytes => some { N := bytesToNat nBytes, E := bytesToNat eBytes }
  | _, _ => none

/-- The key-map construction loop of `refreshJWKS`
(src/pkg/proxy/jwt.go:268): keep only `kty=RSA, use=sig` entries whose
RSA parameters parse; later duplicates of a `kid` overwrite earlier
ones. -/
def buildJWKSKeys (ks : List jwkKey) : KeyMap :=
  ks.foldl
    (fun m key =>
      if key.Kty ≠ "RSA" ∨ key.Use ≠ "sig" then m
      else
        match parseRSAPublicKey key with
        | none => m
        | some pubKey => keyInsert m key.Kid pubKey)
    []

/-- Outcome of the JWKS HTTP GET: transport error, or a status code
together with a body that decodes (`some`) or not (`none`). -/
inductive FetchOutcome where
  | transportError
  | response (status : Nat) (body : Option jwksResponse)
deriving Repr, DecidableEq

/-- Embeds `jwtValidator.refreshJWKS` (src/pkg/proxy/jwt.go:246) acting on the
key cache: on transport error, non-200 status, or an undecodable body
it returns an error and leaves the cache untouched; on success it
replaces the cache wholesale with the keys built from the latest
response.  The second component records success. -/
def refreshJWKS (outcome : FetchOutcome) (keys : KeyMap) : KeyMap × Bool :=
  match outcome with
  | FetchOutcome.transportError => (keys, false)
  | FetchOutcome.response status body =>
    if status ≠ 200 then (keys, false)
    else
      match body with
      | none => (keys, false)
      | some jwks => (buildJWKSKeys jwks.keys, true)

/-! ### `pkg/proxy/handlers` — the CBT reverse-proxy handler -/

/-- Embeds `handlers.CBTConfig` (src/unnamed/part_016:335). -/
structure CBTConfig where
  Name : String
  URL : String
  Timeout : Int
deriving Repr, DecidableEq

/-- Model of `net/url.Parse` failure: Go's parser rejects URLs
containing ASCII control characters ("net/url: invalid control
character in URL"); that is the failure mode modelled, the handler's
behaviour depends only on whether parsing failed. -/
def urlParseFails (s : String) : Bool :=
  s.toList.any fun c => c.toNat < 32 ∨ c.toNat = 127

/-- Embeds `handlers.cbtInstance` (src/unnamed/part_016:347): `proxy = false`
models the nil reverse proxy left behind when the URL failed to parse
at startup (`createInstance` logs and continues). -/
structure cbtInstance where
  cfg : CBTConfig
  proxy : Bool
deriving Repr, DecidableEq

/-- Embeds `CBTHandler.createInstance` (src/unnamed/part_016:366): a parse
failure yields an instance with no proxy; the process continues. -/
def createInstance (cfg : CBTConfig) : cbtInstance :=
  if urlParseFails cfg.URL then { cfg := cfg, proxy := false }
  else { cfg := cfg, proxy := true }

/-- Embeds `NewCBTHandler` (src/unnamed/part_016:353): the instance map, keyed
by name (later configs with the same name overwrite earlier ones, as
map writes do). -/
def NewCBTHandler (configs : List CBTConfig) : List (String × cbtInstance) :=
  configs.foldl
    (fun m cfg =>
      let inst := createInstance cfg
      if m.any fun p => p.1 = cfg.Name then
        m.map fun p => if p.1 = cfg.Name then (cfg.Name, inst) else p
      else
        m ++ [(cfg.Name, inst)])
    []

/-- Outcome of forwarding to the upstream: a transport error (the
reverse proxy's `ErrorHandler` fires) or an upstream response status. -/
inductive UpstreamOutcome where
  | transportError
  | ok (status : Nat)
deriving Repr, DecidableEq

/-- Embeds `CBTHandler.ServeHTTP` (src/unnamed/part_016:419): missing
`X-Datasource` header → 400; unknown instance → 404; instance whose URL
failed to parse (nil proxy) → 500; otherwise forward, with the
`ErrorHandler` turning a transport failure into 502
(src/unnamed/part_016:407). -/
def cbtServeHTTP (instances : List (String × cbtInstance))
    (datasourceHeader : String) (upstream : UpstreamOutcome) : Nat :=
  if datasourceHeader = "" then 400
  else
    match (instances.find? fun p => p.1 = datasourceHeader).map (fun p => p.2) with
    | none => 404
    | some inst =>
      if ¬ inst.proxy then 500
      else
        match upstream with
        | UpstreamOutcome.transportError => 502
        | UpstreamOutcome.ok status => status

/-! ### `pkg/tool/execute_python.go` — the tool handler

`sandbox.ExecuteRequest` / `sandbox.ExecutionResult` are declared in
the sandbox package, which is not under `src/`; their fields are
reconstructed from their uses in `src/pkg/tool/execute_python.go` and
`src/unnamed/part_017`, matching the spec's Execution Request/Result
data model.  `CallToolSuccess` / `CallToolError` are the tool package's
result constructors (declared outside `src/`).
Modelled from the spec: "the MCP tool always returns a well-formed
result object"; an error result is a result flagged as an error with a
diagnostic string, a success result is a result carrying the formatted
response ("the caller receives a normal result with exit_code != 0"). -/

/-- Embeds `time.Duration.Round(time.Second)` in whole seconds (nanosecond
input; rounds to nearest, halves away from zero). -/
def roundToSeconds (d : Int) : Int :=
  if d < 0 then -((-d + 500000000) / timeSecond)
  else (d + 500000000) / timeSecond

/-- Embeds `time.Duration.String()` for a whole number of seconds
("0s", "42s", "1m30s", "2h5m0s", negatives prefixed with "-"). -/
def durationStrNat (s : Nat) : String :=
  if s < 60 then natToStr s ++ "s"
  else if s < 3600 then natToStr (s / 60) ++ "m" ++ natToStr (s % 60) ++ "s"
  else
    natToStr (s / 3600) ++ "h" ++ natToStr (s % 3600 / 60) ++ "m" ++
      natToStr (s % 60) ++ "s"

/-- Embeds `time.Duration.String()` for whole seconds, negatives prefixed. -/
def durationString (secs : Int) : String :=
  if secs < 0 then "-" ++ durationStrNat (-secs).toNat
  else durationStrNat secs.toNat

/-- Zero-padded two-digit rendering of `0 ≤ n < 100`. -/
def pad2 (n : Int) : String :=
  if n < 10 then "0" ++ intToStr n else intToStr n

/-- Embeds `fmt %.2f` on a non-negative value: round to the nearest hundredth
(model: halves away from zero, matching the formatted float64 except at
exact decimal midpoints, which no claim exercises). -/
def formatRat2 (q : Rat) : String :=
  let r := ⌊q * 100 + 1 / 2⌋
  intToStr (r / 100) ++ "." ++ pad2 (r % 100)

/-- Embeds `fmt %.1f` on a non-negative value, same rounding model. -/
def formatRat1 (q : Rat) : String :=
  let r := ⌊q * 10 + 1 / 2⌋
  intToStr (r / 10) ++ "." ++ intToStr (r % 10)

/-- Iteration count of `formatSize`'s reduction loop (`fuel`-bounded;
7 levels cover any int64). -/
def sizeExpAux : Nat → Nat → Nat
  | 0, _ => 0
  | fuel + 1, n => if n ≥ 1024 then 1 + sizeExpAux fuel (n / 1024) else 0

/-- Embeds `formatSize` (src/pkg/tool/execute_python.go:220). -/
def formatSize (bytes : Int) : String :=
  if bytes < 1024 then intToStr bytes ++ " B"
  else
    let exp := sizeExpAux 7 (bytes.toNat / 1024)
    let div : Int := 1024 ^ (exp + 1)
    let letter := String.mk [(['K', 'M', 'G', 'T', 'P', 'E'].getD exp 'K')]
    formatRat1 ((bytes : Rat) / (div : Rat)) ++ " " ++ letter ++ "B"

/-- Embeds `sandbox.SessionFileInfo`: a workspace file listing entry. -/
structure SessionFile where
  Name : String
  Size : Int
deriving Repr, DecidableEq

/-- Embeds `sandbox.ExecutionResult` (fields as used by the handler).
`SessionTTLRemaining` is a `time.Duration` (nanoseconds);
`DurationSeconds` a `float64`. -/
structure ExecutionResult where
  Stdout : String
  Stderr : String
  ExitCode : Int
  ExecutionID : String
  DurationSeconds : Rat
  OutputFiles : List String
  SessionID : String
  SessionTTLRemaining : Int
  SessionFiles : List SessionFile
deriving Repr, DecidableEq

/-- Embeds `sandbox.ExecuteRequest` (fields as used by the handler). -/
structure ExecuteRequest where
  Code : String
  Env : List (String × String)
  Timeout : Int
  SessionID : String
  OwnerID : String
deriving Repr, DecidableEq

/-- The `parts` list accumulated by `formatExecutionResult`
(src/pkg/tool/execute_python.go:174), before joining with newlines. -/
def formatParts (result : ExecutionResult) (cfg : Config) : List String :=
  let parts : List String := []
  let parts := if result.Stdout ≠ "" then parts ++ ["[stdout]\n" ++ result.Stdout] else parts
  let parts := if result.Stderr ≠ "" then parts ++ ["[stderr]\n" ++ result.Stderr] else parts
  let parts :=
    if result.OutputFiles.length > 0 then
      parts ++ ["[files] " ++ joinWith ", " result.OutputFiles]
    else parts
  let parts :=
    if result.SessionID ≠ "" then
      let sessionInfo := "[session] id=" ++ result.SessionID ++ " ttl=" ++
        durationString (roundToSeconds result.SessionTTLRemaining)
      let sessionInfo :=
        if result.SessionFiles.length > 0 then
          sessionInfo ++ " workspace=[" ++
            joinWith ", "
              (result.SessionFiles.map fun f => f.Name ++ "(" ++ formatSize f.Size ++ ")") ++
            "]"
        else sessionInfo
      parts ++ [sessionInfo]
    else parts
  let parts := parts ++ ["[exit=" ++ intToStr result.ExitCode ++ " duration=" ++
    formatRat2 result.DurationSeconds ++ "s id=" ++ result.ExecutionID ++ "]"]
  let localhostNote :=
    match cfg.Storage with
    | some s => containsSub s.PublicURLPfx "localhost" && containsSub result.Stdout "localhost"
    | none => false
  if localhostNote then
    parts ++ ["[note] Storage URLs use localhost - these are accessible if running the server locally."]
  else
    parts

/-- Embeds `formatExecutionResult` (src/pkg/tool/execute_python.go:174). -/
def formatExecutionResult (result : ExecutionResult) (cfg : Config) : String :=
  joinWith "\n" (formatParts result cfg)

/-- Embeds `mcp.CallToolResult`, as produced by the tool package's
`CallToolSuccess` / `CallToolError` constructors.
Modelled from the spec: a well-formed result object that is either a
normal result carrying the response text or an error result carrying a
diagnostic. -/
structure CallToolResult where
  isError : Bool
  content : String
deriving Repr, DecidableEq

/-- Embeds `CallToolSuccess` (tool package, declared outside src/). -/
def CallToolSuccess (s : String) : CallToolResult :=
  { isError := false, content := s }

/-- Embeds `CallToolError` (tool package, declared outside src/). -/
def CallToolError (msg : String) : CallToolResult :=
  { isError := true, content := msg }

/-- Embeds `resourceTipMessage` (src/pkg/tool/execute_python.go:22), appended
once per session. -/
def resourceTipMessage : String :=
  "\n💡 TIP: Read these MCP resources for available datasources and schemas"

/-- Embeds `ExecutePythonToolName`, `DefaultTimeout`, `MaxTimeout`,
`MinTimeout` (src/pkg/tool/execute_python.go:30). -/
def MaxTimeout : Int := 300

/-- Minimum allowed execution timeout in seconds. -/
def MinTimeout : Int := 1

/-- The tool-call arguments the handler reads: `code`
(`RequireString`, absent/non-string ⇒ `none`), `timeout` (`GetInt` with
the configured default), `session_id` (`GetString` with default ""). -/
structure CallToolRequest where
  code : Option String
  timeout : Option Int
  session_id : Option String
deriving Repr, DecidableEq

/-- Embeds `newExecutePythonHandler` (src/pkg/tool/execute_python.go:86).
`exec` is `sandboxSvc.Execute` (outcome of the external sandbox run);
`shown` is the set of session keys already present in
`sessionsWithResourceTip`; `ownerID` is the identity taken from the
auth context.  The handler never returns a Go error: every failure is a
`CallToolError` result. -/
def newExecutePythonHandler (cfg : Config) (shown : List String)
    (exec : ExecuteRequest → Except String ExecutionResult)
    (ownerID : String) (request : CallToolRequest) : CallToolResult :=
  match request.code with
  | none => CallToolError "invalid arguments: code is required"
  | some code =>
    if code = "" then CallToolError "code is required"
    else
      let timeout := request.timeout.getD cfg.Sandbox.Timeout
      if timeout < MinTimeout ∨ timeout > MaxTimeout then
        CallToolError "timeout must be between 1 and 300 seconds"
      else
        let sessionID := request.session_id.getD ""
        let env := buildSandboxEnv cfg
        match exec { Code := code, Env := env, Timeout := timeout * timeSecond,
                     SessionID := sessionID, OwnerID := ownerID } with
        | Except.error e => CallToolError ("execution error: " ++ e)
        | Except.ok result =>
          let response := formatExecutionResult result cfg
          let sessionKey :=
            if result.SessionID = "" then result.ExecutionID else result.SessionID
          let response :=
            if ¬ shown.contains sessionKey then response ++ resourceTipMessage
            else response
          CallToolSuccess response

/-- The first comma-separated X-Forwarded-For entry, trimmed (the value
the spec designates when the peer is a trusted proxy). -/
def firstForwardedEntry (xff : String) : String :=
  trimSpace ((splitChar xff ',').headD "")

/-- The failing configuration for C1: distinct, non-empty credential
values in the Grafana and storage sections. -/
def cfgLeak : Config :=
  { Grafana := { URL := "https://grafana.example", ServiceToken := "grafana-svc-token",
                 Timeout := 120 },
    Storage := some { Endpoint := "https://s3.example", AccessKey := "storage-access-key",
                      SecretKey := "storage-secret-key", Bucket := "bkt", Region := "us",
                      PublicURLPfx := "" },
    Sandbox := { Image := "img", Timeout := 60 } }

/-- The config for the C2 counterexample and witness: no issuer,
audience, or org restriction configured. -/
def jwtCfgOpen : JWTValidatorConfig :=
  { Issuer := "", Audience := "", AllowedOrgs := [] }

/-- An expired but otherwise perfectly valid token: RS256, known kid,
`exp = 0`. -/
def jwtTokExpired : JwtToken :=
  { alg := "RS256", kid := some "k1", claims := [("exp", JsonValue.num 0)],
    sig := "sig" }

/-- The malformed key for the C6 counterexample: `kty = RSA`,
`use = sig`, but a modulus that is not base64url. -/
def badJwk : jwkKey :=
  { Kty := "RSA", Use := "sig", Kid := "kid1", Alg := "RS256", N := "!!!", E := "AQAB" }

/-! ## Claims -/

/-- C5 (counterexample): the claim says the default effective burst is
the ceiling of the effective rate.  For `requests_per_minute = 90` the
effective rate is 1.5 req/s, whose ceiling is 2, but the code computes
`int(1.5) = 1`: the effective burst is 1 and even lies strictly below
the effective rate, which no ceiling can. -/
theorem getBurstSize_not_ceiling :
    RateLimitRule.GetBurstSize { RequestsPerMinute := 90 } = 1 ∧
    RateLimitRule.GetRequestsPerSecond { RequestsPerMinute := 90 } = 3 / 2 ∧
    ((RateLimitRule.GetBurstSize { RequestsPerMinute := 90 } : Rat) <
      RateLimitRule.GetRequestsPerSecond { RequestsPerMinute := 90 }) := by
  refine ⟨?_, ?_, ?_⟩ <;>
    norm_num [RateLimitRule.GetBurstSize, RateLimitRule.GetRequestsPerSecond, goInt]

/-- C5 (amended): rule normalization.  The effective rate is
`requests_per_second` when positive, else `requests_per_minute / 60`
when positive, else 1 req/s.  The effective burst is the configured
`burst_size` when positive, else the effective rate truncated toward
zero (not its ceiling), and never less than 1.  The effective block
duration is the configured one when positive, else 60 seconds. -/
theorem rateLimitRule_normalization (r : RateLimitRule) :
    (0 < r.RequestsPerSecond → r.GetRequestsPerSecond = r.RequestsPerSecond) ∧
    (¬ 0 < r.RequestsPerSecond → 0 < r.RequestsPerMinute →
      r.GetRequestsPerSecond = (r.RequestsPerMinute : Rat) / 60) ∧
    (¬ 0 < r.RequestsPerSecond → ¬ 0 < r.RequestsPerMinute →
      r.GetRequestsPerSecond = 1) ∧
    (0 < r.BurstSize → r.GetBurstSize = r.BurstSize) ∧
    (¬ 0 < r.BurstSize → r.GetBurstSize = max 1 (goInt r.GetRequestsPerSecond)) ∧
    1 ≤ r.GetBurstSize ∧
    (0 < r.BlockDuration → r.GetBlockDuration = r.BlockDuration) ∧
    (¬ 0 < r.BlockDuration → r.GetBlockDuration = 60 * timeSecond) := by
  have hmax : ∀ x : Int, (if x < 1 then 1 else x) = max 1 x := by
    intro x
    rw [max_def]
    split_ifs <;> omega
  refine ⟨?_, ?_, ?_, ?_, ?_, ?_, ?_, ?_⟩
  · intro h
    unfold RateLimitRule.GetRequestsPerSecond
    rw [if_pos h]
  · intro h1 h2
    unfold RateLimitRule.GetRequestsPerSecond
    rw [if_neg h1, if_pos h2]
  · intro h1 h2
    unfold RateLimitRule.GetRequestsPerSecond
    rw [if_neg h1, if_neg h2]
  · intro h
    unfold RateLimitRule.GetBurstSize
    rw [if_pos h]
  · intro h
    unfold RateLimitRule.GetBurstSize
    rw [if_neg h]
    exact hmax _
  · unfold RateLimitRule.GetBurstSize
    dsimp only
    split_ifs <;> omega
  · intro h
    unfold RateLimitRule.GetBlockDuration
    rw [if_pos h]
  · intro h
    unfold RateLimitRule.GetBlockDuration
    rw [if_neg h]

/-- C5 (witness): the amended normalization at
`{requests_per_minute := 90}`: rate `90 / 60`, default block duration. -/
theorem rateLimitRule_normalization_witness :
    RateLimitRule.GetRequestsPerSecond { RequestsPerMinute := 90 } =
      ((90 : Int) : Rat) / 60 ∧
    RateLimitRule.GetBlockDuration { RequestsPerMinute := 90 } = 60 * timeSecond :=
  ⟨(rateLimitRule_normalization { RequestsPerMinute := 90 }).2.1
      (by norm_num) (by norm_num),
   (rateLimitRule_normalization { RequestsPerMinute := 90 }).2.2.2.2.2.2.2
      (by norm_num)⟩

/-- C10: `inMemoryLimiter.Allow` reports `Remaining` computed from the
bucket's token count before the current request consumes a token
(clamped at 0) — in particular, a request admitted with exactly one
token available reports `Remaining = 1` while the post-decision count
is 0; this holds equally for denied requests, whose reported value is
the clamped pre-decision count. -/
theorem inMemoryAllow_remaining_predecision (entry : inMemoryEntry) (elapsed : Rat) :
    (inMemoryAllow entry elapsed).2.1.Remaining =
      max 0 (goInt (limiterTokens entry.limiter elapsed)) ∧
    (limiterTokens entry.limiter elapsed = 1 → 1 ≤ entry.limiter.burst →
      (inMemoryAllow entry elapsed).1 = true ∧
      (inMemoryAllow entry elapsed).2.1.Remaining = 1 ∧
      (inMemoryAllow entry elapsed).2.2.limiter.tokens = 0) := by
  constructor
  · show (if goInt (limiterTokens entry.limiter elapsed) < 0 then 0
      else goInt (limiterTokens entry.limiter elapsed)) = _
    omega
  · intro h1 hb
    have htok : advanceTokens entry.limiter elapsed = 1 := h1
    constructor
    · simp [inMemoryAllow, limiterAllow, htok, hb]
    constructor
    · show (if goInt (limiterTokens entry.limiter elapsed) < 0 then 0
        else goInt (limiterTokens entry.limiter elapsed)) = 1
      rw [show limiterTokens entry.limiter elapsed = 1 from h1]
      norm_num [goInt]
    · simp [inMemoryAllow, limiterAllow, htok, hb]

/-- C10 (witness): a bucket with burst 2 holding exactly one token:
the request is admitted, `Remaining` is reported as 1 (the pre-decision
count), and the bucket is left empty. -/
theorem inMemoryAllow_remaining_predecision_witness :
    (inMemoryAllow
      { limiter := { limit := 1, burst := 2, tokens := 1 },
        resetAt := 0, burstSize := 2, ratePerSec := 1 } 0).1 = true ∧
    (inMemoryAllow
      { limiter := { limit := 1, burst := 2, tokens := 1 },
        resetAt := 0, burstSize := 2, ratePerSec := 1 } 0).2.1.Remaining = 1 ∧
    (inMemoryAllow
      { limiter := { limit := 1, burst := 2, tokens := 1 },
        resetAt := 0, burstSize := 2, ratePerSec := 1 } 0).2.2.limiter.tokens = 0 :=
  (inMemoryAllow_remaining_predecision
      { limiter := { limit := 1, burst := 2, tokens := 1 },
        resetAt := 0, burstSize := 2, ratePerSec := 1 } 0).2
    (by norm_num [limiterTokens, advanceTokens]) (by norm_num)

/-- C3: rate-limit client-IP resolution.  If the direct peer IP is not
a trusted proxy, the client IP equals the peer IP no matter what
X-Forwarded-For / X-Real-IP carry (two requests differing only in those
headers resolve identically).  If the peer is trusted, the client IP is
the first X-Forwarded-For entry when the header is present and that
entry trims to a non-empty string, else the (trimmed) X-Real-IP when
present, else the peer IP. -/
theorem getClientIP_resolution (cfg : RateLimitConfig) (r r' : HttpRequest)
    (haddr : r.RemoteAddr = r'.RemoteAddr) :
    (isTrustedProxy cfg (remoteIPOf r) = false →
      getClientIP cfg r = remoteIPOf r ∧ getClientIP cfg r' = getClientIP cfg r) ∧
    (isTrustedProxy cfg (remoteIPOf r) = true →
      (r.XForwardedFor ≠ "" → firstForwardedEntry r.XForwardedFor ≠ "" →
        getClientIP cfg r = firstForwardedEntry r.XForwardedFor) ∧
      ((r.XForwardedFor = "" ∨ firstForwardedEntry r.XForwardedFor = "") →
        r.XRealIP ≠ "" → getClientIP cfg r = trimSpace r.XRealIP) ∧
      ((r.XForwardedFor = "" ∨ firstForwardedEntry r.XForwardedFor = "") →
        r.XRealIP = "" → getClientIP cfg r = remoteIPOf r)) := by
  have hsame : remoteIPOf r' = remoteIPOf r := by
    unfold remoteIPOf
    rw [haddr]
  constructor
  · intro htr
    have h1 : getClientIP cfg r = remoteIPOf r := by
      simp [getClientIP, htr]
    have h2 : getClientIP cfg r' = remoteIPOf r' := by
      simp [getClientIP, hsame, htr]
    exact ⟨h1, by rw [h2, hsame, h1]⟩
  · intro htr
    refine ⟨?_, ?_, ?_⟩
    · intro hxff hfe
      unfold firstForwardedEntry at hfe ⊢
      rcases hsplit : splitChar r.XForwardedFor ',' with _ | ⟨ip0, rest⟩
      · rw [hsplit] at hfe
        simp only [List.headD_nil] at hfe
        exact absurd rfl hfe
      · rw [hsplit] at hfe
        simp only [List.headD_cons] at hfe
        simp [getClientIP, htr, hxff, hsplit, hfe]
    · intro hor hxri
      rcases hor with h | h
      · simp [getClientIP, htr, h, hxri]
      · unfold firstForwardedEntry at h
        by_cases hxf : r.XForwardedFor = ""
        · simp [getClientIP, htr, hxf, hxri]
        · rcases hsplit : splitChar r.XForwardedFor ',' with _ | ⟨ip0, rest⟩
          · simp [getClientIP, htr, hxf, hsplit, hxri]
          · rw [hsplit] at h
            simp only [List.headD_cons] at h
            simp [getClientIP, htr, hxf, hsplit, h, hxri]
    · intro hor hxri
      rcases hor with h | h
      · simp [getClientIP, htr, h, hxri]
      · unfold firstForwardedEntry at h
        by_cases hxf : r.XForwardedFor = ""
        · simp [getClientIP, htr, hxf, hxri]
        · rcases hsplit : splitChar r.XForwardedFor ',' with _ | ⟨ip0, rest⟩
          · simp [getClientIP, htr, hxf, hsplit, hxri]
          · rw [hsplit] at h
            simp only [List.headD_cons] at h
            simp [getClientIP, htr, hxf, hsplit, h, hxri]

/-- C3 (witness): scenario RL-2.  With trusted proxies `10.0.0.0/8`, a
request from `10.0.0.5:3411` carrying `X-Forwarded-For: 1.2.3.4,
10.0.0.9` resolves to `1.2.3.4`; the same request from `8.8.8.8:3411`
resolves to `8.8.8.8` however the headers read. -/
theorem getClientIP_resolution_witness :
    getClientIP { Enabled := true, TrustedProxies := ["10.0.0.0/8"] }
      { RemoteAddr := "10.0.0.5:3411", XForwardedFor := "1.2.3.4, 10.0.0.9",
        XRealIP := "" } = "1.2.3.4" ∧
    getClientIP { Enabled := true, TrustedProxies := ["10.0.0.0/8"] }
      { RemoteAddr := "8.8.8.8:3411", XForwardedFor := "1.2.3.4, 10.0.0.9",
        XRealIP := "" } = "8.8.8.8" ∧
    getClientIP { Enabled := true, TrustedProxies := ["10.0.0.0/8"] }
      { RemoteAddr := "8.8.8.8:3411", XForwardedFor := "9.9.9.9",
        XRealIP := "7.7.7.7" } =
      getClientIP { Enabled := true, TrustedProxies := ["10.0.0.0/8"] }
        { RemoteAddr := "8.8.8.8:3411", XForwardedFor := "1.2.3.4, 10.0.0.9",
          XRealIP := "" } := by
  refine ⟨?_, ?_, ?_⟩
  · have h :=
      ((getClientIP_resolution { Enabled := true, TrustedProxies := ["10.0.0.0/8"] }
        { RemoteAddr := "10.0.0.5:3411", XForwardedFor := "1.2.3.4, 10.0.0.9",
          XRealIP := "" }
        { RemoteAddr := "10.0.0.5:3411", XForwardedFor := "1.2.3.4, 10.0.0.9",
          XRealIP := "" } rfl).2 (by decide)).1 (by decide) (by decide)
    rw [h]
    decide
  · have h :=
      ((getClientIP_resolution { Enabled := true, TrustedProxies := ["10.0.0.0/8"] }
        { RemoteAddr := "8.8.8.8:3411", XForwardedFor := "1.2.3.4, 10.0.0.9",
          XRealIP := "" }
        { RemoteAddr := "8.8.8.8:3411", XForwardedFor := "1.2.3.4, 10.0.0.9",
          XRealIP := "" } rfl).1 (by decide)).1
    rw [h]
    decide
  · exact
      ((getClientIP_resolution { Enabled := true, TrustedProxies := ["10.0.0.0/8"] }
        { RemoteAddr := "8.8.8.8:3411", XForwardedFor := "9.9.9.9",
          XRealIP := "7.7.7.7" }
        { RemoteAddr := "8.8.8.8:3411", XForwardedFor := "1.2.3.4, 10.0.0.9",
          XRealIP := "" } rfl).1 (by decide)).2.symm ▸ by
        exact (((getClientIP_resolution { Enabled := true, TrustedProxies := ["10.0.0.0/8"] }
          { RemoteAddr := "8.8.8.8:3411", XForwardedFor := "9.9.9.9",
            XRealIP := "7.7.7.7" }
          { RemoteAddr := "8.8.8.8:3411", XForwardedFor := "1.2.3.4, 10.0.0.9",
            XRealIP := "" } rfl).1 (by decide)).2)

/-- C4 (counterexample): the claim says every authentication failure —
including a missing Authorization header — carries the generic body
"invalid or expired token".  A request with no Authorization header is
rejected by both middlewares with status 401 but body
"missing Authorization header", which differs from the generic body. -/
theorem auth_middleware_missing_header_body :
    tokenAuthMiddleware (fun _ => "") "" =
      MWOutcome.reject 401 "missing Authorization header" ∧
    jwtAuthMiddleware (fun _ => Except.error "sig") "" =
      MWOutcome.reject 401 "missing Authorization header" ∧
    "missing Authorization header" ≠ "invalid or expired token" := by
  refine ⟨rfl, rfl, by decide⟩

/-- C4 (amended): every authentication failure is rejected with HTTP
401 and one of three fixed bodies: a missing Authorization header is
rejected with "missing Authorization header"; a header without the
`Bearer ` scheme is rejected with "invalid Authorization header
format"; and a well-formed `Bearer` request whose token/JWT fails
validation — whatever the reason — is rejected with the single generic
body "invalid or expired token" (the same constant for every
validation outcome, so the body never discloses which check failed);
finally, every rejection either middleware ever issues is a 401
carrying one of those three bodies. -/
theorem auth_middleware_401 (validateTok : String → String)
    (validateJWT : String → Except String JWTClaims) (auth : String) :
    (auth = "" →
      tokenAuthMiddleware validateTok auth =
        MWOutcome.reject 401 "missing Authorization header" ∧
      jwtAuthMiddleware validateJWT auth =
        MWOutcome.reject 401 "missing Authorization header") ∧
    (auth ≠ "" → leadsWith "Bearer ".toList auth.toList = false →
      tokenAuthMiddleware validateTok auth =
        MWOutcome.reject 401 "invalid Authorization header format" ∧
      jwtAuthMiddleware validateJWT auth =
        MWOutcome.reject 401 "invalid Authorization header format") ∧
    (auth ≠ "" → leadsWith "Bearer ".toList auth.toList = true →
      validateTok (String.mk (auth.toList.drop 7)) = "" →
      tokenAuthMiddleware validateTok auth =
        MWOutcome.reject 401 "invalid or expired token") ∧
    (∀ e, auth ≠ "" → leadsWith "Bearer ".toList auth.toList = true →
      validateJWT (String.mk (auth.toList.drop 7)) = Except.error e →
      jwtAuthMiddleware validateJWT auth =
        MWOutcome.reject 401 "invalid or expired token") ∧
    (∀ status body,
      (tokenAuthMiddleware validateTok auth = MWOutcome.reject status body ∨
       jwtAuthMiddleware validateJWT auth = MWOutcome.reject status body) →
      status = 401 ∧
      (body = "missing Authorization header" ∨
       body = "invalid Authorization header format" ∨
       body = "invalid or expired token")) := by
  refine ⟨?_, ?_, ?_, ?_, ?_⟩
  · intro h0
    constructor
    · unfold tokenAuthMiddleware
      rw [if_pos h0]
    · unfold jwtAuthMiddleware
      rw [if_pos h0]
  · intro h0 hb
    constructor
    · unfold tokenAuthMiddleware
      rw [if_neg h0, if_pos (by simpa using hb)]
    · unfold jwtAuthMiddleware
      rw [if_neg h0, if_pos (by simpa using hb)]
  · intro h0 hb hv
    unfold tokenAuthMiddleware
    rw [if_neg h0, if_neg (by simpa using hb)]
    dsimp only
    rw [if_pos hv]
  · intro e h0 hb hv
    unfold jwtAuthMiddleware
    rw [if_neg h0, if_neg (by simpa using hb)]
    dsimp only
    rw [hv]
  · intro status body h
    rcases h with h | h
    · unfold tokenAuthMiddleware at h
      by_cases h0 : auth = ""
      · rw [if_pos h0] at h
        cases h
        exact ⟨rfl, Or.inl rfl⟩
      · rw [if_neg h0] at h
        by_cases hb : leadsWith "Bearer ".toList auth.toList = true
        · rw [if_neg (by simpa using hb)] at h
          dsimp only at h
          by_cases hv : validateTok (String.mk (auth.toList.drop 7)) = ""
          · rw [if_pos hv] at h
            cases h
            exact ⟨rfl, Or.inr (Or.inr rfl)⟩
          · rw [if_neg hv] at h
            exact (MWOutcome.noConfusion h)
        · rw [if_pos (by simpa using hb)] at h
          cases h
          exact ⟨rfl, Or.inr (Or.inl rfl)⟩
    · unfold jwtAuthMiddleware at h
      by_cases h0 : auth = ""
      · rw [if_pos h0] at h
        cases h
        exact ⟨rfl, Or.inl rfl⟩
      · rw [if_neg h0] at h
        by_cases hb : leadsWith "Bearer ".toList auth.toList = true
        · rw [if_neg (by simpa using hb)] at h
          dsimp only at h
          rcases hv : validateJWT (String.mk (auth.toList.drop 7)) with e | claims
          · rw [hv] at h
            cases h
            exact ⟨rfl, Or.inr (Or.inr rfl)⟩
          · rw [hv] at h
            exact (MWOutcome.noConfusion h)
        · rw [if_pos (by simpa using hb)] at h
          cases h
          exact ⟨rfl, Or.inr (Or.inl rfl)⟩

/-- C4 (witness): the amended behaviour at concrete inputs: a failing
token validation and a failing JWT validation under `Bearer bad` are
both rejected with 401 and the generic body, and a `Basic abc` header
is rejected by both middlewares with 401 and the malformed-header
body. -/
theorem auth_middleware_401_witness :
    tokenAuthMiddleware (fun _ => "") "Bearer bad" =
      MWOutcome.reject 401 "invalid or expired token" ∧
    jwtAuthMiddleware (fun _ => Except.error "token is expired") "Bearer bad" =
      MWOutcome.reject 401 "invalid or expired token" ∧
    tokenAuthMiddleware (fun _ => "") "Basic abc" =
      MWOutcome.reject 401 "invalid Authorization header format" ∧
    jwtAuthMiddleware (fun _ => Except.error "bad signature") "Basic abc" =
      MWOutcome.reject 401 "invalid Authorization header format" :=
  ⟨(auth_middleware_401 (fun _ => "") (fun _ => Except.error "token is expired")
      "Bearer bad").2.2.1 (by decide) (by decide) rfl,
   (auth_middleware_401 (fun _ => "") (fun _ => Except.error "token is expired")
      "Bearer bad").2.2.2.1 "token is expired" (by decide) (by decide) rfl,
   ((auth_middleware_401 (fun _ => "") (fun _ => Except.error "bad signature")
      "Basic abc").2.1 (by decide) (by decide)).1,
   ((auth_middleware_401 (fun _ => "") (fun _ => Except.error "bad signature")
      "Basic abc").2.1 (by decide) (by decide)).2⟩

/-- C1: the claim (and the repository's own documentation) says the
sandbox environment contains no credential values.  `buildSandboxEnv`
injects the backend (Grafana) service token and the storage access and
secret keys verbatim: at `cfgLeak` the environment maps
`XATU_GRAFANA_TOKEN`, `XATU_S3_ACCESS_KEY` and `XATU_S3_SECRET_KEY` to
exactly the configured credential fields. -/
theorem buildSandboxEnv_contains_credentials :
    envGet (buildSandboxEnv cfgLeak) "XATU_GRAFANA_TOKEN" =
      some cfgLeak.Grafana.ServiceToken ∧
    envGet (buildSandboxEnv cfgLeak) "XATU_S3_ACCESS_KEY" =
      (cfgLeak.Storage.map fun s => s.AccessKey) ∧
    envGet (buildSandboxEnv cfgLeak) "XATU_S3_SECRET_KEY" =
      (cfgLeak.Storage.map fun s => s.SecretKey) ∧
    cfgLeak.Grafana.ServiceToken = "grafana-svc-token" ∧
    (cfgLeak.Storage.map fun s => s.AccessKey) = some "storage-access-key" ∧
    (cfgLeak.Storage.map fun s => s.SecretKey) = some "storage-secret-key" := by
  refine ⟨?_, ?_, ?_, rfl, rfl, rfl⟩ <;> decide

/-- Embeds `jwtParse` only ever succeeds with the token's own claim set. -/
theorem jwtParse_ok_val (verify : RSAPublicKey → JwtToken → Bool) (keys : KeyMap)
    (now : Int) (tok : JwtToken) (c : MapClaims)
    (h : jwtParse verify keys now tok = Except.ok c) : c = tok.claims := by
  unfold jwtParse at h
  by_cases ha : tok.alg = "RS256"
  · rw [if_neg (by simp [ha])] at h
    rcases hkf : keyFunc keys tok with e | key
    · rw [hkf] at h
      cases h
    · rw [hkf] at h
      dsimp only at h
      by_cases hv : verify key tok = true
      · rw [if_neg (by simp [hv])] at h
        by_cases he : expOK now tok.claims = true
        · rw [if_neg (by simp [he])] at h
          by_cases hn : nbfOK now tok.claims = true
          · rw [if_neg (by simp [hn])] at h
            cases h
            rfl
          · rw [if_pos hn] at h
            cases h
        · rw [if_pos he] at h
          cases h
      · rw [if_pos hv] at h
        cases h
  · rw [if_pos (by simpa using ha)] at h
    cases h

/-- Embeds `jwtParse` succeeds exactly when the method is RS256, the `kid` is
present and known, the signature verifies under that key, and the
`exp`/`nbf` checks pass. -/
theorem jwtParse_ok_iff (verify : RSAPublicKey → JwtToken → Bool) (keys : KeyMap)
    (now : Int) (tok : JwtToken) :
    (∃ c, jwtParse verify keys now tok = Except.ok c) ↔
      (tok.alg = "RS256" ∧
       (∃ kid key, tok.kid = some kid ∧ lookupKey keys kid = some key ∧
         verify key tok = true) ∧
       expOK now tok.claims = true ∧ nbfOK now tok.claims = true) := by
  unfold jwtParse keyFunc
  by_cases ha : tok.alg = "RS256"
  · rw [if_neg (by simp [ha])]
    rcases hk : tok.kid with _ | kid
    · simp [hk]
    · dsimp only
      rcases hl : lookupKey keys kid with _ | key
      · simp [hk, hl]
      · dsimp only
        by_cases hv : verify key tok = true
        · rw [if_neg (by simp [hv])]
          by_cases he : expOK now tok.claims = true
          · rw [if_neg (by simp [he])]
            by_cases hn : nbfOK now tok.claims = true
            · rw [if_neg (by simp [hn])]
              simp [ha, hk, hl, hv, he, hn]
            · rw [if_pos hn]
              simp [hn]
          · rw [if_pos he]
            simp [he]
        · rw [if_pos hv]
          simp [hk, hl, hv]
  · rw [if_pos (by simpa using ha)]
    simp [ha]

/-- C2 (amended): `Validate` accepts a JWT iff the RS256 signature
verifies under a key whose `kid` is in the current JWKS map, the
library's registered time-claim checks pass (`exp` not in the past,
`nbf` not in the future), the `iss` claim equals the configured issuer
when one is configured, the configured audience occurs in the audience
sequence when configured, and the groups intersect the configured
allowed organizations when that list is non-empty. -/
theorem jwtValidator_validate_iff (cfg : JWTValidatorConfig) (keys : KeyMap)
    (verify : RSAPublicKey → JwtToken → Bool) (now : Int) (tok : JwtToken) :
    isAccepted (jwtValidatorValidate cfg keys verify now tok) = true ↔
      (tok.alg = "RS256" ∧
       (∃ kid key, tok.kid = some kid ∧ lookupKey keys kid = some key ∧
         verify key tok = true) ∧
       expOK now tok.claims = true ∧ nbfOK now tok.claims = true ∧
       (cfg.Issuer ≠ "" → getString tok.claims "iss" = cfg.Issuer) ∧
       (cfg.Audience ≠ "" →
         containsAudience (extractAudience tok.claims) cfg.Audience = true) ∧
       (cfg.AllowedOrgs ≠ [] →
         hasAllowedOrg (groupsOf tok.claims) cfg.AllowedOrgs = true)) := by
  constructor
  · intro hAcc
    unfold jwtValidatorValidate at hAcc
    rcases hp : jwtParse verify keys now tok with e | claims
    · rw [hp] at hAcc
      simp [isAccepted] at hAcc
    · have hc := jwtParse_ok_val verify keys now tok claims hp
      subst hc
      rw [hp] at hAcc
      dsimp only at hAcc
      obtain ⟨ha, hsig, hexp, hnbf⟩ := (jwtParse_ok_iff verify keys now tok).mp ⟨_, hp⟩
      by_cases g1 : cfg.Issuer ≠ "" ∧ getString tok.claims "iss" ≠ cfg.Issuer
      · rw [if_pos g1] at hAcc
        simp [isAccepted] at hAcc
      · rw [if_neg g1] at hAcc
        by_cases g2 : cfg.Audience ≠ "" ∧
            ¬ containsAudience (extractAudience tok.claims) cfg.Audience = true
        · rw [if_pos (by simpa using g2)] at hAcc
          simp [isAccepted] at hAcc
        · rw [if_neg (by simpa using g2)] at hAcc
          try dsimp only at hAcc
          by_cases g3 : cfg.AllowedOrgs ≠ [] ∧
              ¬ hasAllowedOrg (groupsOf tok.claims) cfg.AllowedOrgs = true
          · rw [if_pos (by simpa using g3)] at hAcc
            simp [isAccepted] at hAcc
          · refine ⟨ha, hsig, hexp, hnbf, ?_, ?_, ?_⟩
            · intro hIss
              by_contra hx
              exact g1 ⟨hIss, hx⟩
            · intro hAud
              by_contra hx
              exact g2 ⟨hAud, hx⟩
            · intro hOrg
              by_contra hx
              exact g3 ⟨hOrg, hx⟩
  · rintro ⟨ha, hsig, hexp, hnbf, hIss, hAud, hOrg⟩
    obtain ⟨c, hp⟩ := (jwtParse_ok_iff verify keys now tok).mpr ⟨ha, hsig, hexp, hnbf⟩
    have hc := jwtParse_ok_val verify keys now tok c hp
    subst hc
    unfold jwtValidatorValidate
    rw [hp]
    try dsimp only
    rw [if_neg (fun g => g.2 (hIss g.1))]
    rw [if_neg (by
      rintro ⟨g1, g2⟩
      exact g2 (by simpa using hAud g1))]
    rw [if_neg (by
      rintro ⟨g1, g2⟩
      exact g2 (by simpa using hOrg g1))]
    rfl

/-- C2 (counterexample): the claim's four conditions (known-kid RS256
signature, issuer, audience, groups — the latter three vacuous here,
being unconfigured) all hold for `jwtTokExpired` at time 100 under a
verifier that accepts everything, yet `Validate` rejects the token: it
is expired, a condition the claim's "iff" omits. -/
theorem jwtValidator_expired_counterexample :
    isAccepted (jwtValidatorValidate jwtCfgOpen [("k1", { N := 17, E := 3 })]
      (fun _ _ => true) 100 jwtTokExpired) = false ∧
    jwtTokExpired.alg = "RS256" ∧
    jwtTokExpired.kid = some "k1" ∧
    lookupKey [("k1", ({ N := 17, E := 3 } : RSAPublicKey))] "k1" =
      some { N := 17, E := 3 } ∧
    (fun (_ : RSAPublicKey) (_ : JwtToken) => true) { N := 17, E := 3 }
      jwtTokExpired = true ∧
    jwtCfgOpen.Issuer = "" ∧ jwtCfgOpen.Audience = "" ∧
    jwtCfgOpen.AllowedOrgs = [] := by
  refine ⟨?_, rfl, rfl, ?_, rfl, rfl, rfl, rfl⟩ <;> decide

/-- C2 (witness): the amended iff at scenario JWT-1: issuer and
allowed orgs configured, a live token signed under a known kid with the
right issuer and the `ethpandaops` group is accepted. -/
theorem jwtValidator_validate_iff_witness :
    isAccepted (jwtValidatorValidate
      { Issuer := "https://idp", Audience := "", AllowedOrgs := ["ethpandaops"] }
      [("k1", { N := 17, E := 3 })] (fun _ _ => true) 100
      { alg := "RS256", kid := some "k1",
        claims := [("iss", JsonValue.str "https://idp"),
                   ("exp", JsonValue.num 200),
                   ("groups", JsonValue.arr [JsonValue.str "ethpandaops",
                                             JsonValue.str "other"])],
        sig := "sig" }) = true :=
  (jwtValidator_validate_iff
    { Issuer := "https://idp", Audience := "", AllowedOrgs := ["ethpandaops"] }
    [("k1", { N := 17, E := 3 })] (fun _ _ => true) 100
    { alg := "RS256", kid := some "k1",
      claims := [("iss", JsonValue.str "https://idp"),
                 ("exp", JsonValue.num 200),
                 ("groups", JsonValue.arr [JsonValue.str "ethpandaops",
                                           JsonValue.str "other"])],
      sig := "sig" }).mpr
    ⟨rfl, ⟨"k1", { N := 17, E := 3 }, rfl, by decide, rfl⟩, by decide, by decide,
     fun _ => by decide, fun h => absurd rfl h, fun _ => by decide⟩

/-- A key is found iff some entry carries it. -/
theorem lookupKey_isSome_any (m : KeyMap) (kid : String) :
    (lookupKey m kid).isSome = m.any fun p => p.1 = kid := by
  induction m with
  | nil => rfl
  | cons p m ih =>
    by_cases hp : p.1 = kid
    · simp [lookupKey, List.find?_cons, hp]
    · simp only [lookupKey, List.find?_cons, List.any_cons] at ih ⊢
      simp [hp, ih]

/-- Replacing the entries keyed `kid'` does not change which keys are
present. -/
theorem lookupKey_map_replace_isSome (m : KeyMap) (kid' : String)
    (k : RSAPublicKey) (kid : String) :
    (lookupKey (m.map fun p => if p.1 = kid' then (kid', k) else p) kid).isSome =
      (lookupKey m kid).isSome := by
  induction m with
  | nil => rfl
  | cons p m ih =>
    have hkey : (if p.1 = kid' then (kid', k) else p).1 = p.1 := by
      split
      next h => simp [h]
      next h => rfl
    unfold lookupKey at ih ⊢
    rw [List.map_cons, List.find?_cons, List.find?_cons, hkey]
    by_cases hk : p.1 = kid
    · rw [decide_eq_true hk]
      rfl
    · rw [decide_eq_false hk]
      exact ih

/-- Embeds `keyInsert` makes `kid'` present and leaves presence of every other
key unchanged. -/
theorem lookupKey_keyInsert_isSome (m : KeyMap) (kid' : String)
    (k : RSAPublicKey) (kid : String) :
    (lookupKey (keyInsert m kid' k) kid).isSome = true ↔
      (kid = kid' ∨ (lookupKey m kid).isSome = true) := by
  unfold keyInsert
  by_cases hany : (m.any fun p => p.1 = kid') = true
  · rw [if_pos hany, lookupKey_map_replace_isSome]
    constructor
    · intro h
      exact Or.inr h
    · rintro (h | h)
      · subst h
        rw [lookupKey_isSome_any]
        exact hany
      · exact h
  · rw [if_neg hany]
    unfold lookupKey
    rw [List.find?_append]
    rcases hm : List.find? (fun p => decide (p.1 = kid)) m with _ | v
    · by_cases hkk : kid = kid'
      · subst hkk
        simp [List.find?_cons]
      · have : (List.find? (fun p => decide (p.1 = kid)) [(kid', k)]) = none := by
          rw [List.find?_cons, decide_eq_false (fun h => hkk h.symm)]
          rfl
        simp [this, lookupKey, hm, hkk]
    · simp [lookupKey, hm]

/-- Presence in the built JWKS map, relative to an arbitrary
accumulator: a key is present after folding iff it was present before
or some list entry provides it (RSA, sig, parseable). -/
theorem buildJWKSKeys_foldl_isSome (ks : List jwkKey) (m : KeyMap) (kid : String) :
    (lookupKey
      (ks.foldl
        (fun m key =>
          if key.Kty ≠ "RSA" ∨ key.Use ≠ "sig" then m
          else
            match parseRSAPublicKey key with
            | none => m
            | some pubKey => keyInsert m key.Kid pubKey)
        m) kid).isSome = true ↔
      ((lookupKey m kid).isSome = true ∨
       ∃ k, k ∈ ks ∧ k.Kid = kid ∧ k.Kty = "RSA" ∧ k.Use = "sig" ∧
         (parseRSAPublicKey k).isSome = true) := by
  induction ks generalizing m with
  | nil => simp
  | cons key ks ih =>
    rw [List.foldl_cons, ih]
    by_cases hskip : key.Kty ≠ "RSA" ∨ key.Use ≠ "sig"
    · rw [if_pos hskip]
      constructor
      · rintro (h | h)
        · exact Or.inl h
        · exact Or.inr (by
            obtain ⟨k, hk, rest⟩ := h
            exact ⟨k, List.mem_cons_of_mem _ hk, rest⟩)
      · rintro (h | ⟨k, hk, h1, h2, h3, h4⟩)
        · exact Or.inl h
        · rcases List.mem_cons.mp hk with rfl | hk'
          · exact absurd (by tauto) (by tauto)
          · exact Or.inr ⟨k, hk', h1, h2, h3, h4⟩
    · rw [if_neg hskip]
      push_neg at hskip
      obtain ⟨hty, huse⟩ := hskip
      rcases hparse : parseRSAPublicKey key with _ | pk
      · constructor
        · rintro (h | h)
          · exact Or.inl h
          · obtain ⟨k, hk, rest⟩ := h
            exact Or.inr ⟨k, List.mem_cons_of_mem _ hk, rest⟩
        · rintro (h | ⟨k, hk, h1, h2, h3, h4⟩)
          · exact Or.inl h
          · rcases List.mem_cons.mp hk with rfl | hk'
            · rw [hparse] at h4
              simp at h4
            · exact Or.inr ⟨k, hk', h1, h2, h3, h4⟩
      · rw [lookupKey_keyInsert_isSome]
        constructor
        · rintro ((h | h) | h)
          · exact Or.inr ⟨key, List.mem_cons_self _ _, h.symm, hty, huse, by simp [hparse]⟩
          · exact Or.inl h
          · obtain ⟨k, hk, rest⟩ := h
            exact Or.inr ⟨k, List.mem_cons_of_mem _ hk, rest⟩
        · rintro (h | ⟨k, hk, h1, h2, h3, h4⟩)
          · exact Or.inl (Or.inr h)
          · rcases List.mem_cons.mp hk with rfl | hk'
            · exact Or.inl (Or.inl h1.symm)
            · exact Or.inr ⟨k, hk', h1, h2, h3, h4⟩

/-- C6 (amended): a failed JWKS refresh — transport error, non-200
status, or undecodable body — leaves the key map exactly as it was
(never emptied, never partially updated); a successful refresh replaces
it wholesale with the latest response's keys, and a `kid` is then
present iff some response entry with that `kid` has `kty = RSA`,
`use = sig` and RSA parameters that parse (entries that fail to parse
are skipped). -/
theorem refreshJWKS_spec (outcome : FetchOutcome) (old : KeyMap) :
    ((refreshJWKS outcome old).2 = false → (refreshJWKS outcome old).1 = old) ∧
    (outcome = FetchOutcome.transportError → refreshJWKS outcome old = (old, false)) ∧
    (∀ st body, outcome = FetchOutcome.response st body → st ≠ 200 →
      refreshJWKS outcome old = (old, false)) ∧
    (∀ st, outcome = FetchOutcome.response st none →
      refreshJWKS outcome old = (old, false)) ∧
    (∀ jwks, outcome = FetchOutcome.response 200 (some jwks) →
      (refreshJWKS outcome old).1 = buildJWKSKeys jwks.keys ∧
      (refreshJWKS outcome old).2 = true ∧
      ∀ kid, (lookupKey (buildJWKSKeys jwks.keys) kid).isSome = true ↔
        ∃ k, k ∈ jwks.keys ∧ k.Kid = kid ∧ k.Kty = "RSA" ∧ k.Use = "sig" ∧
          (parseRSAPublicKey k).isSome = true) := by
  refine ⟨?_, ?_, ?_, ?_, ?_⟩
  · intro h
    rcases outcome with _ | ⟨st, body⟩
    · rfl
    · unfold refreshJWKS at h ⊢
      dsimp only at h ⊢
      by_cases hst : st ≠ 200
      · rw [if_pos hst]
      · rw [if_neg hst] at h ⊢
        rcases body with _ | jwks
        · rfl
        · simp at h
  · rintro rfl
    rfl
  · rintro st body rfl hst
    unfold refreshJWKS
    dsimp only
    rw [if_pos hst]
  · rintro st rfl
    unfold refreshJWKS
    dsimp only
    by_cases hst : st ≠ 200
    · rw [if_pos hst]
    · rw [if_neg hst]
  · rintro jwks rfl
    refine ⟨rfl, rfl, ?_⟩
    intro kid
    have h := buildJWKSKeys_foldl_isSome jwks.keys [] kid
    unfold buildJWKSKeys
    rw [h]
    simp [lookupKey]

/-- C6 (counterexample): the claim says a successful refresh retains
exactly the `(RSA, sig)` entries of the response.  A response whose
only key is `(RSA, sig)` but carries an undecodable modulus refreshes
successfully to an empty map: the entry is skipped, so the map does not
contain every `(RSA, sig)` entry. -/
theorem refreshJWKS_skips_unparseable :
    refreshJWKS (FetchOutcome.response 200 (some { keys := [badJwk] }))
      [("k0", { N := 5, E := 7 })] = ([], true) ∧
    badJwk.Kty = "RSA" ∧ badJwk.Use = "sig" ∧ badJwk.Kid = "kid1" ∧
    lookupKey
      (refreshJWKS (FetchOutcome.response 200 (some { keys := [badJwk] }))
        [("k0", { N := 5, E := 7 })]).1 "kid1" = none := by
  refine ⟨?_, rfl, rfl, rfl, ?_⟩ <;> decide

/-- C6 (witness): the amended statement at concrete outcomes: a
transport error and a 503 both preserve a one-entry map; a 200 refresh
with one well-formed key (modulus "AQAB", exponent "AQAB") yields a map
containing exactly that kid. -/
theorem refreshJWKS_spec_witness :
    refreshJWKS FetchOutcome.transportError [("k0", { N := 5, E := 7 })] =
      ([("k0", { N := 5, E := 7 })], false) ∧
    refreshJWKS (FetchOutcome.response 503 (some { keys := [] }))
      [("k0", { N := 5, E := 7 })] = ([("k0", { N := 5, E := 7 })], false) ∧
    refreshJWKS (FetchOutcome.response 200 none) [("k0", { N := 5, E := 7 })] =
      ([("k0", { N := 5, E := 7 })], false) ∧
    (lookupKey
      (refreshJWKS (FetchOutcome.response 200 (some { keys :=
        [{ Kty := "RSA", Use := "sig", Kid := "k1", Alg := "RS256",
           N := "AQAB", E := "AQAB" }] }))
        [("k0", { N := 5, E := 7 })]).1 "k1").isSome = true :=
  ⟨(refreshJWKS_spec FetchOutcome.transportError [("k0", { N := 5, E := 7 })]).2.1 rfl,
   (refreshJWKS_spec (FetchOutcome.response 503 (some { keys := [] }))
      [("k0", { N := 5, E := 7 })]).2.2.1 503 (some { keys := [] }) rfl (by decide),
   (refreshJWKS_spec (FetchOutcome.response 200 none)
      [("k0", { N := 5, E := 7 })]).2.2.2.1 200 rfl,
   (((refreshJWKS_spec (FetchOutcome.response 200 (some { keys :=
        [{ Kty := "RSA", Use := "sig", Kid := "k1", Alg := "RS256",
           N := "AQAB", E := "AQAB" }] }))
      [("k0", { N := 5, E := 7 })]).2.2.2.2 _ rfl).2.2 "k1").mpr
     ⟨{ Kty := "RSA", Use := "sig", Kid := "k1", Alg := "RS256",
        N := "AQAB", E := "AQAB" },
      by decide, rfl, rfl, rfl, by decide⟩⟩

/-- C7: the CBT upstream handler's error policy.  A missing
`X-Datasource` header yields 400; a header naming no configured
instance yields 404; an instance whose target URL failed to parse at
startup (its reverse proxy is nil, the process having continued) yields
500; and an upstream transport failure yields 502 (the handler is a
total function — no request crashes it). -/
theorem cbtHandler_error_policy (configs : List CBTConfig) (ds : String)
    (up : UpstreamOutcome) :
    (cbtServeHTTP (NewCBTHandler configs) "" up = 400) ∧
    (ds ≠ "" → ((NewCBTHandler configs).find? fun p => p.1 = ds) = none →
      cbtServeHTTP (NewCBTHandler configs) ds up = 404) ∧
    (∀ cfg, ds ≠ "" →
      (((NewCBTHandler configs).find? fun p => p.1 = ds) =
        some (ds, createInstance cfg)) →
      urlParseFails cfg.URL = true →
      cbtServeHTTP (NewCBTHandler configs) ds up = 500) ∧
    (∀ cfg, ds ≠ "" →
      (((NewCBTHandler configs).find? fun p => p.1 = ds) =
        some (ds, createInstance cfg)) →
      urlParseFails cfg.URL = false → up = UpstreamOutcome.transportError →
      cbtServeHTTP (NewCBTHandler configs) ds up = 502) := by
  refine ⟨?_, ?_, ?_, ?_⟩
  · unfold cbtServeHTTP
    rw [if_pos rfl]
  · intro hds hfind
    unfold cbtServeHTTP
    rw [if_neg hds, hfind]
    rfl
  · intro cfg hds hfind hfail
    unfold cbtServeHTTP
    rw [if_neg hds, hfind]
    dsimp only [Option.map]
    unfold createInstance
    rw [if_pos hfail]
    rfl
  · intro cfg hds hfind hok hup
    unfold cbtServeHTTP
    rw [if_neg hds, hfind, hup]
    dsimp only [Option.map]
    unfold createInstance
    rw [if_neg (by simp [hok])]

/-- C7 (witness): two configured instances, one with an unparsable URL
(an embedded control character): missing header → 400, unknown name →
404, the broken instance → 500, the good instance behind a failing
upstream → 502. -/
theorem cbtHandler_error_policy_witness :
    cbtServeHTTP
      (NewCBTHandler [{ Name := "good", URL := "http://cbt.example", Timeout := 30 },
                      { Name := "bad", URL := "http://cbt\n.example", Timeout := 30 }])
      "" UpstreamOutcome.transportError = 400 ∧
    cbtServeHTTP
      (NewCBTHandler [{ Name := "good", URL := "http://cbt.example", Timeout := 30 },
                      { Name := "bad", URL := "http://cbt\n.example", Timeout := 30 }])
      "nope" UpstreamOutcome.transportError = 404 ∧
    cbtServeHTTP
      (NewCBTHandler [{ Name := "good", URL := "http://cbt.example", Timeout := 30 },
                      { Name := "bad", URL := "http://cbt\n.example", Timeout := 30 }])
      "bad" UpstreamOutcome.transportError = 500 ∧
    cbtServeHTTP
      (NewCBTHandler [{ Name := "good", URL := "http://cbt.example", Timeout := 30 },
                      { Name := "bad", URL := "http://cbt\n.example", Timeout := 30 }])
      "good" UpstreamOutcome.transportError = 502 :=
  ⟨(cbtHandler_error_policy
      [{ Name := "good", URL := "http://cbt.example", Timeout := 30 },
       { Name := "bad", URL := "http://cbt\n.example", Timeout := 30 }]
      "" UpstreamOutcome.transportError).1,
   (cbtHandler_error_policy
      [{ Name := "good", URL := "http://cbt.example", Timeout := 30 },
       { Name := "bad", URL := "http://cbt\n.example", Timeout := 30 }]
      "nope" UpstreamOutcome.transportError).2.1 (by decide) (by decide),
   (cbtHandler_error_policy
      [{ Name := "good", URL := "http://cbt.example", Timeout := 30 },
       { Name := "bad", URL := "http://cbt\n.example", Timeout := 30 }]
      "bad" UpstreamOutcome.transportError).2.2.1
      { Name := "bad", URL := "http://cbt\n.example", Timeout := 30 }
      (by decide) (by decide) (by decide),
   (cbtHandler_error_policy
      [{ Name := "good", URL := "http://cbt.example", Timeout := 30 },
       { Name := "bad", URL := "http://cbt\n.example", Timeout := 30 }]
      "good" UpstreamOutcome.transportError).2.2.2
      { Name := "good", URL := "http://cbt.example", Timeout := 30 }
      (by decide) (by decide) (by decide) rfl⟩

/-- C9: the `execute_python` handler rejects any call whose effective
timeout — the request's `timeout` argument, defaulting to the
configured `sandbox.timeout` — lies outside [1, 300] with an error
result, without consulting the sandbox (the outcome is identical for
every possible `Execute` behaviour); meanwhile `Config.Validate`
accepts any config with an image and `sandbox.timeout ≤ 600`, so a
configured timeout in (300, 600] passes validation yet dooms every call
that omits the `timeout` argument. -/
theorem executePython_timeout_gate (cfg : Config) (shown : List String)
    (exec exec2 : ExecuteRequest → Except String ExecutionResult)
    (ownerID : String) (request : CallToolRequest)
    (hto : request.timeout.getD cfg.Sandbox.Timeout < MinTimeout ∨
      request.timeout.getD cfg.Sandbox.Timeout > MaxTimeout) :
    (newExecutePythonHandler cfg shown exec ownerID request =
      newExecutePythonHandler cfg shown exec2 ownerID request) ∧
    (newExecutePythonHandler cfg shown exec ownerID request).isError = true ∧
    (cfg.Sandbox.Image ≠ "" → cfg.Sandbox.Timeout ≤ MaxSandboxTimeout →
      Config.Validate cfg = Except.ok ()) := by
  refine ⟨?_, ?_, ?_⟩
  · unfold newExecutePythonHandler
    rcases request.code with _ | code
    · rfl
    · dsimp only
      by_cases hc : code = ""
      · rw [if_pos hc, if_pos hc]
      · rw [if_neg hc, if_neg hc, if_pos hto, if_pos hto]
  · unfold newExecutePythonHandler
    rcases request.code with _ | code
    · rfl
    · dsimp only
      by_cases hc : code = ""
      · rw [if_pos hc]
        rfl
      · rw [if_neg hc, if_pos hto]
        rfl
  · intro himg hcap
    unfold Config.Validate
    rw [if_neg himg, if_neg (by omega)]

/-- C9 (witness): a config with `sandbox.timeout = 400` passes
validation (400 ≤ 600), yet a call that omits the `timeout` argument
fails identically under two sandboxes with opposite behaviours, with an
error result. -/
theorem executePython_timeout_gate_witness :
    (newExecutePythonHandler
      { Grafana := { URL := "u", ServiceToken := "t", Timeout := 120 },
        Storage := none, Sandbox := { Image := "img", Timeout := 400 } }
      [] (fun _ => Except.error "backend down") ""
      { code := some "print(1)", timeout := none, session_id := none } =
     newExecutePythonHandler
      { Grafana := { URL := "u", ServiceToken := "t", Timeout := 120 },
        Storage := none, Sandbox := { Image := "img", Timeout := 400 } }
      [] (fun _ => Except.ok
            { Stdout := "2\n", Stderr := "", ExitCode := 0, ExecutionID := "e1",
              DurationSeconds := 1 / 4, OutputFiles := [], SessionID := "",
              SessionTTLRemaining := 0, SessionFiles := [] }) ""
      { code := some "print(1)", timeout := none, session_id := none }) ∧
    (newExecutePythonHandler
      { Grafana := { URL := "u", ServiceToken := "t", Timeout := 120 },
        Storage := none, Sandbox := { Image := "img", Timeout := 400 } }
      [] (fun _ => Except.error "backend down") ""
      { code := some "print(1)", timeout := none, session_id := none }).isError =
      true ∧
    Config.Validate
      { Grafana := { URL := "u", ServiceToken := "t", Timeout := 120 },
        Storage := none, Sandbox := { Image := "img", Timeout := 400 } } =
      Except.ok () := by
  have h := executePython_timeout_gate
    { Grafana := { URL := "u", ServiceToken := "t", Timeout := 120 },
      Storage := none, Sandbox := { Image := "img", Timeout := 400 } }
    [] (fun _ => Except.error "backend down")
    (fun _ => Except.ok
      { Stdout := "2\n", Stderr := "", ExitCode := 0, ExecutionID := "e1",
        DurationSeconds := 1 / 4, OutputFiles := [], SessionID := "",
        SessionTTLRemaining := 0, SessionFiles := [] }) ""
    { code := some "print(1)", timeout := none, session_id := none }
    (by decide)
  exact ⟨h.1, h.2.1, h.2.2 (by decide) (by decide)⟩

/-- The exit-code line is always among the formatted parts. -/
theorem formatParts_mem_exit (r : ExecutionResult) (cfg : Config) :
    ("[exit=" ++ intToStr r.ExitCode ++ " duration=" ++
      formatRat2 r.DurationSeconds ++ "s id=" ++ r.ExecutionID ++ "]") ∈
      formatParts r cfg := by
  unfold formatParts
  dsimp only
  split_ifs <;> simp

/-- A non-empty stdout is reported among the formatted parts. -/
theorem formatParts_mem_stdout (r : ExecutionResult) (cfg : Config)
    (h : r.Stdout ≠ "") : ("[stdout]\n" ++ r.Stdout) ∈ formatParts r cfg := by
  unfold formatParts
  dsimp only
  split_ifs <;> simp_all

/-- A non-empty stderr is reported among the formatted parts. -/
theorem formatParts_mem_stderr (r : ExecutionResult) (cfg : Config)
    (h : r.Stderr ≠ "") : ("[stderr]\n" ++ r.Stderr) ∈ formatParts r cfg := by
  unfold formatParts
  dsimp only
  split_ifs <;> simp_all

/-- C8: for an execution that runs to completion (valid arguments and
`Execute` returning a result) the handler returns a success (non-error)
tool result — the child's exit code, non-empty stdout and non-empty
stderr all appear in the formatted response, whatever the exit code —
and an error result arises only when `Execute` itself fails, carrying
its message. -/
theorem executePython_result_reporting (cfg : Config) (shown : List String)
    (exec : ExecuteRequest → Except String ExecutionResult)
    (ownerID code : String) (t : Option Int) (sid : Option String)
    (r : ExecutionResult) (hcode : code ≠ "")
    (hto : ¬ (t.getD cfg.Sandbox.Timeout < MinTimeout ∨
      t.getD cfg.Sandbox.Timeout > MaxTimeout)) :
    (exec { Code := code, Env := buildSandboxEnv cfg,
            Timeout := t.getD cfg.Sandbox.Timeout * timeSecond,
            SessionID := sid.getD "", OwnerID := ownerID } = Except.ok r →
      newExecutePythonHandler cfg shown exec ownerID
          { code := some code, timeout := t, session_id := sid } =
        CallToolSuccess
          (if ¬ shown.contains
              (if r.SessionID = "" then r.ExecutionID else r.SessionID) = true
           then formatExecutionResult r cfg ++ resourceTipMessage
           else formatExecutionResult r cfg) ∧
      (newExecutePythonHandler cfg shown exec ownerID
          { code := some code, timeout := t, session_id := sid }).isError = false ∧
      ("[exit=" ++ intToStr r.ExitCode ++ " duration=" ++
        formatRat2 r.DurationSeconds ++ "s id=" ++ r.ExecutionID ++ "]") ∈
        formatParts r cfg ∧
      (r.Stdout ≠ "" → ("[stdout]\n" ++ r.Stdout) ∈ formatParts r cfg) ∧
      (r.Stderr ≠ "" → ("[stderr]\n" ++ r.Stderr) ∈ formatParts r cfg)) ∧
    (∀ e, exec { Code := code, Env := buildSandboxEnv cfg,
                 Timeout := t.getD cfg.Sandbox.Timeout * timeSecond,
                 SessionID := sid.getD "", OwnerID := ownerID } = Except.error e →
      newExecutePythonHandler cfg shown exec ownerID
          { code := some code, timeout := t, session_id := sid } =
        CallToolError ("execution error: " ++ e) ∧
      (newExecutePythonHandler cfg shown exec ownerID
          { code := some code, timeout := t, session_id := sid }).isError = true) := by
  constructor
  · intro hexec
    have hhandler : newExecutePythonHandler cfg shown exec ownerID
        { code := some code, timeout := t, session_id := sid } =
        CallToolSuccess
          (if ¬ shown.contains
              (if r.SessionID = "" then r.ExecutionID else r.SessionID) = true
           then formatExecutionResult r cfg ++ resourceTipMessage
           else formatExecutionResult r cfg) := by
      unfold newExecutePythonHandler
      dsimp only
      rw [if_neg hcode, if_neg hto, hexec]
    refine ⟨hhandler, ?_, formatParts_mem_exit r cfg,
      formatParts_mem_stdout r cfg, formatParts_mem_stderr r cfg⟩
    rw [hhandler]
    rfl
  · intro e hexec
    have hhandler : newExecutePythonHandler cfg shown exec ownerID
        { code := some code, timeout := t, session_id := sid } =
        CallToolError ("execution error: " ++ e) := by
      unfold newExecutePythonHandler
      dsimp only
      rw [if_neg hcode, if_neg hto, hexec]
    exact ⟨hhandler, by rw [hhandler]; rfl⟩

/-- C8 (witness): a completed run with exit code 3 and error text on
stderr is returned as a success (non-error) result whose response
carries the exit line and the stderr section. -/
theorem executePython_result_reporting_witness :
    (newExecutePythonHandler
      { Grafana := { URL := "u", ServiceToken := "t", Timeout := 120 },
        Storage := none, Sandbox := { Image := "img", Timeout := 60 } }
      ["e1"]
      (fun _ => Except.ok
        { Stdout := "", Stderr := "boom\n", ExitCode := 3, ExecutionID := "e1",
          DurationSeconds := 1 / 4, OutputFiles := [], SessionID := "",
          SessionTTLRemaining := 0, SessionFiles := [] }) "owner"
      { code := some "raise SystemExit(3)", timeout := none,
        session_id := none }).isError = false ∧
    ("[stderr]\nboom\n") ∈ formatParts
      { Stdout := "", Stderr := "boom\n", ExitCode := 3, ExecutionID := "e1",
        DurationSeconds := 1 / 4, OutputFiles := [], SessionID := "",
        SessionTTLRemaining := 0, SessionFiles := [] }
      { Grafana := { URL := "u", ServiceToken := "t", Timeout := 120 },
        Storage := none, Sandbox := { Image := "img", Timeout := 60 } } := by
  have h := (executePython_result_reporting
    { Grafana := { URL := "u", ServiceToken := "t", Timeout := 120 },
      Storage := none, Sandbox := { Image := "img", Timeout := 60 } }
    ["e1"]
    (fun _ => Except.ok
      { Stdout := "", Stderr := "boom\n", ExitCode := 3, ExecutionID := "e1",
        DurationSeconds := 1 / 4, OutputFiles := [], SessionID := "",
        SessionTTLRemaining := 0, SessionFiles := [] })
    "owner" "raise SystemExit(3)" none none
    { Stdout := "", Stderr := "boom\n", ExitCode := 3, ExecutionID := "e1",
      DurationSeconds := 1 / 4, OutputFiles := [], SessionID := "",
      SessionTTLRemaining := 0, SessionFiles := [] }
    (by decide) (by decide)).1 rfl
  exact ⟨h.2.1, h.2.2.2.2 (by decide)⟩
